import Mathlib

/-!
Shallow embedding of the annotation-platform backend
(projectmanagement/models.py, projectmanagement/api.py, annotators/models.py).

Modelling conventions:
- Database tables are lists of records; ORM filters become list filters and
  ORM get becomes a unique-match lookup.
- Python numbers that the code stores in FloatField columns are modelled as
  exact rationals; the code compares and averages them with exact equality.
- Fallible handlers return Except, with the error carrying the same
  (status, detail) pair the Python code returns.
- Each polymorphic subtype row keeps a kind tag naming the concrete table
  it lives in.
-/

deriving instance DecidableEq for Except

namespace Annopedia

inductive ProjectType
  | textClassification
  | machineTranslationAdequacy
  | machineTranslationFluency
  | namedEntityRecognition
deriving DecidableEq

/-- The project_type string property of each concrete Project subtype. -/
def ProjectType.verbose : ProjectType → String
  | .textClassification => "Text Classification"
  | .machineTranslationAdequacy => "Machine Translation Adequacy"
  | .machineTranslationFluency => "Machine Translation Fluency"
  | .namedEntityRecognition => "Named Entity Recognition"

structure ProjectRec where
  id : Nat
  name : String
  ptype : ProjectType
deriving DecidableEq

/-- Category model: project-scoped named label (unique per project and name). -/
structure CategoryRec where
  id : Nat
  project : Nat
  name : String
deriving DecidableEq

/-- UnannotatedProjectEntry and its subtypes: the kind tag names the concrete
subtype table; fields of other subtypes stay none. preAnnotationCat is the
pre_annotation Category foreign key of the text-classification subtype. -/
structure UnannotatedRec where
  id : Nat
  project : Nat
  kind : ProjectType
  text : String
  context : Option String := none
  mt_system_translation : Option String := none
  preAnnotationCat : Option Nat := none
  preAnnotationAdequacy : Option Rat := none
  preAnnotationFluency : Option Rat := none
deriving DecidableEq

/-- TextHighlight row. The span and category columns are declared NOT NULL in
the schema, but MachineTranslationProject.add_entry passes the payload values
through unchecked, so the record fields are optional here to express what the
code hands to the insert. -/
structure HighlightRec where
  id : Nat
  span_start : Option Int
  span_end : Option Int
  category : Option String
  mistranslation_source : Option Nat := none
deriving DecidableEq

/-- NERTextHighlight row: spans and the Category foreign key are always
present because NamedEntityRecognitionProject.add_entry checks them before
creating the row. -/
structure NERHighlightRec where
  id : Nat
  span_start : Int
  span_end : Int
  category : Nat
deriving DecidableEq

/-- Kind-specific columns of the four ProjectEntry subtypes. -/
inductive EntryData
  | tc (classification : Nat)
  | mtAdequacy (adequacy : Rat) (annotator_comment : Option String)
      (source_text_highlights : List Nat) (target_text_highlights : List Nat)
  | mtFluency (fluency : Rat) (annotator_comment : Option String)
      (target_text_highlights : List Nat)
  | ner (ner_text_highlights : List Nat)
deriving DecidableEq

/-- ProjectEntry base row plus the subtype columns; created_at/updated_at
carry the isoformat timestamps the export serializes. -/
structure EntryRec where
  id : Nat
  project : Nat
  unannotated_source : Nat
  annotator : Nat
  data : EntryData
  created_at : String := ""
  updated_at : String := ""
deriving DecidableEq

structure PrivateAnnotatorRec where
  id : Nat
  project : Nat
  username : String
deriving DecidableEq

/-- The relational store, one list per table, with per-table id sequences. -/
structure DB where
  projects : List ProjectRec := []
  categories : List CategoryRec := []
  unannotated : List UnannotatedRec := []
  entries : List EntryRec := []
  highlights : List HighlightRec := []
  nerHighlights : List NERHighlightRec := []
  annotators : List PrivateAnnotatorRec := []
  nextProjectId : Nat := 1
  nextUnannotatedId : Nat := 1
  nextEntryId : Nat := 1
  nextHighlightId : Nat := 1
  nextNerHighlightId : Nat := 1
deriving DecidableEq

/-- Project.imported_texts: UnannotatedProjectEntry.objects.filter(project=self). -/
def DB.importedTexts (db : DB) (project : Nat) : List UnannotatedRec :=
  db.unannotated.filter (fun u => u.project == project)

/-- Project.entries: ProjectEntry.objects.filter(project=self). -/
def DB.entriesOf (db : DB) (project : Nat) : List EntryRec :=
  db.entries.filter (fun e => e.project == project)

/-- Project.get_annotators_annotations: filter(project=self, annotator=annotator). -/
def DB.getAnnotatorsAnnotations (db : DB) (project : Nat) (a : Nat) : List EntryRec :=
  db.entries.filter (fun e => e.project == project && e.annotator == a)

/-- Categories of a project: Category.objects.filter(project=self). -/
def DB.categoriesOf (db : DB) (project : Nat) : List CategoryRec :=
  db.categories.filter (fun c => c.project == project)

/-- Name of a category by id. The classification foreign key column is NOT
NULL, so in well-formed stores the lookup succeeds; the default covers
dangling ids only. -/
def DB.categoryName (db : DB) (cid : Nat) : String :=
  match db.categories.find? (fun c => c.id == cid) with
  | some c => c.name
  | none => ""

/-- The span triple of an NERTextHighlight row by id (span bounds and the
category name), as serialized by the NER values property. -/
def DB.nerTriple (db : DB) (hid : Nat) : Option (Int × Int × String) :=
  (db.nerHighlights.find? (fun h => h.id == hid)).map
    (fun h => (h.span_start, h.span_end, db.categoryName h.category))

/-- Text of an unannotated entry by id (entry.unannotated_source.text). -/
def DB.sourceText (db : DB) (uid : Nat) : String :=
  match db.unannotated.find? (fun u => u.id == uid) with
  | some u => u.text
  | none => ""

/-- A Python value as far as the built-in float() conversion is concerned. -/
inductive PyVal
  | num (q : Rat)
  | queryset (rows : List EntryRec)

/-- Python float(): converts a number, raises TypeError when applied to a
QuerySet object. -/
def pyFloat : PyVal → Except String Rat
  | .num q => .ok q
  | .queryset _ => .error "TypeError: float() argument must be a string or a number, not QuerySet"

/-- Python round(x, 2) modelled on exact rationals (the call sites below that
reach it are unreachable, see completion). -/
def pyRound2 (q : Rat) : Rat := ((round (q * 100) : Int) : Rat) / 100

/-- PrivateAnnotator.completion (annotators/models.py lines 43-49):

  completed_annotations = self.project.get_annotators_annotations(self)
  annotations_total = self.project.imported_texts.count()
  if annotations_total == 0: return 100.0
  return round(float(completed_annotations) / float(annotations_total), 2) * 100

completed_annotations is a QuerySet, not a count, so float() of it raises. -/
def PrivateAnnotatorRec.completion (db : DB) (a : PrivateAnnotatorRec) : Except String Rat :=
  let completed_annotations := db.getAnnotatorsAnnotations a.project a.id
  let annotations_total := (db.importedTexts a.project).length
  if annotations_total = 0 then
    .ok 100
  else do
    let c ← pyFloat (.queryset completed_annotations)
    let t ← pyFloat (.num annotations_total)
    .ok (pyRound2 (c / t) * 100)

/-- One highlight dictionary of an MT or NER entry payload; each field
mirrors a highlight.get(key, None) access in add_entry. The end key of the
dictionary is named ending here because end is reserved in Lean. -/
structure HighlightIn where
  beginning : Option Int := none
  ending : Option Int := none
  category : Option String := none
  mistranslation_source : Option (Option Int × Option Int) := none
deriving DecidableEq

/-- The payload dictionary of an entry-creation request; each optional field
mirrors one payload key read by the add_entry implementations. -/
structure EntryPayload where
  category_name : Option String := none
  adequacy : Option Rat := none
  fluency : Option Rat := none
  annotator_comment : Option String := none
  target_text_highlights : Option (List HighlightIn) := none
  source_text_highlights : Option (List HighlightIn) := none
  ner_text_highlights : Option (List HighlightIn) := none
deriving DecidableEq

/-- EntrySchema: unannotated_source id plus payload dictionary. -/
structure EntryIn where
  unannotated_source : Nat
  payload : EntryPayload
deriving DecidableEq

/-- The triple-quoted not-found detail used by every add_entry variant. -/
def srcNotFoundMsg (srcId : Nat) (projName : String) : String :=
  "\n                    Unannotated source with ID: " ++ toString srcId ++
    "\n                    does not exist in project " ++ projName ++
    "\n                "

/-- UnannotatedProjectEntry.objects.get(id=..., project=self): unique by id. -/
def DB.findSource (db : DB) (srcId : Nat) (project : Nat) : Option UnannotatedRec :=
  db.unannotated.find? (fun u => u.id == srcId && u.project == project)

/-- Category.objects.get(project=self, name=...): unique by the
(project, name) constraint. -/
def DB.findCategory (db : DB) (project : Nat) (cname : String) : Option CategoryRec :=
  db.categories.find? (fun c => c.project == project && c.name == cname)

/-- TextClassificationProject.add_entry (models.py lines 306-341). -/
def tcAddEntry (db : DB) (proj : ProjectRec) (annotator : Nat) (entry_data : EntryIn) :
    Except (Nat × String) (DB × EntryRec) :=
  match entry_data.payload.category_name with
  | none => .error (404, "Missing category name in payload")
  | some cname =>
    match db.findCategory proj.id cname with
    | none =>
      let pname := proj.name
      .error (404, s!"Category {cname} does not exist in project {pname}")
    | some category =>
      match db.findSource entry_data.unannotated_source proj.id with
      | none => .error (404, srcNotFoundMsg entry_data.unannotated_source proj.name)
      | some unannotated_source =>
        let new_entry : EntryRec :=
          { id := db.nextEntryId, project := proj.id,
            unannotated_source := unannotated_source.id,
            annotator := annotator, data := .tc category.id }
        .ok ({ db with entries := db.entries ++ [new_entry],
                       nextEntryId := db.nextEntryId + 1 }, new_entry)

/-- The data-integrity loop of NamedEntityRecognitionProject.add_entry
(models.py lines 428-438): every highlight must carry beginning, end and
category, and the category must exist in the project. -/
def nerHighlightCheck (db : DB) (proj : ProjectRec) : List HighlightIn → Option (Nat × String)
  | [] => none
  | h :: rest =>
    if h.beginning.isNone || h.ending.isNone || h.category.isNone then
      some (400, "Missing data")
    else
      let cname := h.category.getD ""
      match db.findCategory proj.id cname with
      | none =>
        let pname := proj.name
        some (404, s!"Category {cname} not found in project {pname}")
      | some _ => nerHighlightCheck db proj rest

/-- The creation loop of NamedEntityRecognitionProject.add_entry (models.py
lines 443-452); runs only after nerHighlightCheck found every field present
and every category existing, so the defaults are never taken. -/
def nerCreateHighlights (db : DB) (proj : ProjectRec) : List HighlightIn → DB × List Nat
  | [] => (db, [])
  | h :: rest =>
    let cid := ((db.findCategory proj.id (h.category.getD "")).map (fun c => c.id)).getD 0
    let hl : NERHighlightRec :=
      { id := db.nextNerHighlightId, span_start := h.beginning.getD 0,
        span_end := h.ending.getD 0, category := cid }
    let db1 := { db with nerHighlights := db.nerHighlights ++ [hl],
                         nextNerHighlightId := db.nextNerHighlightId + 1 }
    let (db2, ids) := nerCreateHighlights db1 proj rest
    (db2, hl.id :: ids)

/-- NamedEntityRecognitionProject.add_entry (models.py lines 407-469). -/
def nerAddEntry (db : DB) (proj : ProjectRec) (annotator : Nat) (entry_data : EntryIn) :
    Except (Nat × String) (DB × EntryRec) :=
  match entry_data.payload.ner_text_highlights with
  | none => .error (400, "Missing ner_text_highlights data in request")
  | some hs =>
    match db.findSource entry_data.unannotated_source proj.id with
    | none => .error (404, srcNotFoundMsg entry_data.unannotated_source proj.name)
    | some unannotated_source =>
      match nerHighlightCheck db proj hs with
      | some e => .error e
      | none =>
        let entryId := db.nextEntryId
        let db1 := { db with nextEntryId := db.nextEntryId + 1 }
        let (db2, hlIds) := nerCreateHighlights db1 proj hs
        let new_entry : EntryRec :=
          { id := entryId, project := proj.id,
            unannotated_source := unannotated_source.id,
            annotator := annotator, data := .ner hlIds }
        .ok ({ db2 with entries := db2.entries ++ [new_entry] }, new_entry)

/-- machine_translation_variation of the two MT project subtypes. -/
def mtVariation : ProjectType → String
  | .machineTranslationAdequacy => "adequacy"
  | _ => "fluency"

/-- The target_text_highlights loop of MachineTranslationProject.add_entry
(models.py lines 554-576). The source checks
  if None in [beginning, end, category]: pass
which is a no-op, so highlights with missing fields are persisted as-is; a
Mistranslation highlight with a nested span gets a separate
mistranslation-reference TextHighlight row linked to it. -/
def mtCreateTargetHighlights (db : DB) : List HighlightIn → DB × List Nat
  | [] => (db, [])
  | h :: rest =>
    let (db1, msrc) :=
      if h.category == some "Mistranslation" then
        match h.mistranslation_source with
        | none => (db, none)
        | some (s, e) =>
          let m : HighlightRec :=
            { id := db.nextHighlightId, span_start := s, span_end := e,
              category := some "mistranslation-reference" }
          ({ db with highlights := db.highlights ++ [m],
                     nextHighlightId := db.nextHighlightId + 1 }, some m.id)
      else (db, none)
    let hl : HighlightRec :=
      { id := db1.nextHighlightId, span_start := h.beginning, span_end := h.ending,
        category := h.category, mistranslation_source := msrc }
    let db2 := { db1 with highlights := db1.highlights ++ [hl],
                          nextHighlightId := db1.nextHighlightId + 1 }
    let (db3, ids) := mtCreateTargetHighlights db2 rest
    (db3, hl.id :: ids)

/-- The source_text_highlights loop (models.py lines 579-588), adequacy
projects only; again the missing-field check is a no-op pass. -/
def mtCreateSourceHighlights (db : DB) : List HighlightIn → DB × List Nat
  | [] => (db, [])
  | h :: rest =>
    let hl : HighlightRec :=
      { id := db.nextHighlightId, span_start := h.beginning, span_end := h.ending,
        category := h.category }
    let db1 := { db with highlights := db.highlights ++ [hl],
                         nextHighlightId := db.nextHighlightId + 1 }
    let (db2, ids) := mtCreateSourceHighlights db1 rest
    (db2, hl.id :: ids)

/-- MachineTranslationProject.add_entry (models.py lines 524-613), shared by
the adequacy and fluency subtypes through machine_translation_variation. -/
def mtAddEntry (db : DB) (proj : ProjectRec) (annotator : Nat) (entry_data : EntryIn) :
    Except (Nat × String) (DB × EntryRec) :=
  let variation := mtVariation proj.ptype
  let score? :=
    if proj.ptype == .machineTranslationAdequacy then entry_data.payload.adequacy
    else entry_data.payload.fluency
  match score? with
  | none => .error (400, s!"Missing {variation} data in request")
  | some score =>
    match db.findSource entry_data.unannotated_source proj.id with
    | none => .error (404, srcNotFoundMsg entry_data.unannotated_source proj.name)
    | some unannotated_source =>
      let comment := entry_data.payload.annotator_comment
      let entryId := db.nextEntryId
      let db1 := { db with nextEntryId := db.nextEntryId + 1 }
      let (db2, targetIds) :=
        match entry_data.payload.target_text_highlights with
        | none => (db1, [])
        | some hs => mtCreateTargetHighlights db1 hs
      let (db3, sourceIds) :=
        if proj.ptype == .machineTranslationAdequacy then
          match entry_data.payload.source_text_highlights with
          | none => (db2, [])
          | some hs => mtCreateSourceHighlights db2 hs
        else (db2, [])
      let data :=
        if proj.ptype == .machineTranslationAdequacy then
          EntryData.mtAdequacy score comment sourceIds targetIds
        else
          EntryData.mtFluency score comment targetIds
      let new_entry : EntryRec :=
        { id := entryId, project := proj.id,
          unannotated_source := unannotated_source.id,
          annotator := annotator, data := data }
      .ok ({ db3 with entries := db3.entries ++ [new_entry] }, new_entry)

/-- Polymorphic Project.add_entry dispatch: the request handler calls
project.add_entry and the concrete subtype implementation runs. -/
def addEntry (db : DB) (proj : ProjectRec) (annotator : Nat) (entry_data : EntryIn) :
    Except (Nat × String) (DB × EntryRec) :=
  match proj.ptype with
  | .textClassification => tcAddEntry db proj annotator entry_data
  | .namedEntityRecognition => nerAddEntry db proj annotator entry_data
  | .machineTranslationAdequacy => mtAddEntry db proj annotator entry_data
  | .machineTranslationFluency => mtAddEntry db proj annotator entry_data

/-- The kind-specific payload checks each add_entry performs before looking
up the unannotated source: category-name present and existing for text
classification, ner_text_highlights present for NER, the variation score
present for MT. -/
def payloadPrecheck (db : DB) (proj : ProjectRec) (p : EntryPayload) : Bool :=
  match proj.ptype with
  | .textClassification =>
    match p.category_name with
    | none => false
    | some cname => (db.findCategory proj.id cname).isSome
  | .namedEntityRecognition => p.ner_text_highlights.isSome
  | .machineTranslationAdequacy => p.adequacy.isSome
  | .machineTranslationFluency => p.fluency.isSome

/-- A flat upload row: one dictionary mapping field names to string cells
(the shape produced by a JSON array of flat objects or by a parsed CSV). -/
def Row := List (String × String)
deriving instance DecidableEq for Row

/-- Dictionary lookup on a row (entry[k] and entry.get(k, None)). -/
def rowGet? (r : Row) (k : String) : Option String :=
  (r.find? (fun kv => kv.1 == k)).map (fun kv => kv.2)

/-- The triple-quoted missing-category detail of
TextClassificationProject.add_unannotated_entries; it names the category and
the project, not the row index. -/
def categoryMissingMsg (cat pname : String) : String :=
  "\n                            Uploaded data contains category " ++ cat ++
    ",\n                            that does not exist in project " ++ pname ++
    "\n                        "

def contextMissingMsg (index : Nat) : String :=
  s!"Context field provided, but row with index {index} is missing context value"

def textMissingMsg (index : Nat) : String :=
  s!"Text field missing from row with index {index}"

def referenceMissingMsg (index : Nat) : String :=
  s!"Reference translation field missing from row with index {index}"

def successMsg (n : Nat) : String :=
  s!"Succesfully created {n} unannotated entries"

/-- The pre-annotation category check run on one row of a
text-classification batch (models.py lines 351-360): reading
entry[value_field] on a row lacking that key is an uncaught KeyError in the
source, modelled as a 500. -/
def tcRowCategoryError (db : DB) (proj : ProjectRec) (value_field : Option String)
    (entry : Row) : Option (Nat × String) :=
  match value_field with
  | none => none
  | some vf =>
    match rowGet? entry vf with
    | none => some (500, "KeyError: " ++ vf)
    | some catName =>
      match db.findCategory proj.id catName with
      | none => some (400, categoryMissingMsg catName proj.name)
      | some _ => none

/-- The context-field and text-field presence checks run on one row
(models.py lines 361-364 and their NER duplicates). -/
def rowTextContextError (text_field : String) (context_field : Option String)
    (index : Nat) (entry : Row) : Option (Nat × String) :=
  match context_field with
  | some cf =>
    if (rowGet? entry cf).isNone then some (400, contextMissingMsg index)
    else if (rowGet? entry text_field).isNone then some (400, textMissingMsg index)
    else none
  | none =>
    if (rowGet? entry text_field).isNone then some (400, textMissingMsg index)
    else none

/-- All validation checks of one text-classification row, in source order. -/
def tcRowError (db : DB) (proj : ProjectRec) (text_field : String)
    (value_field context_field : Option String) (index : Nat) (entry : Row) :
    Option (Nat × String) :=
  match tcRowCategoryError db proj value_field entry with
  | some e => some e
  | none => rowTextContextError text_field context_field index entry

/-- Validation phase of TextClassificationProject.add_unannotated_entries
(models.py lines 348-364), one row at a time carrying the enumerate index.
The rows are dictionaries by construction here, so the
type(entry) != dict guard never fires. -/
def tcValidateRows (db : DB) (proj : ProjectRec) (text_field : String)
    (value_field context_field : Option String) : Nat → List Row → Option (Nat × String)
  | _, [] => none
  | index, entry :: rest =>
    match tcRowError db proj text_field value_field context_field index entry with
    | some e => some e
    | none => tcValidateRows db proj text_field value_field context_field (index + 1) rest

/-- Persistence phase of TextClassificationProject.add_unannotated_entries
(models.py lines 368-378); runs only after the whole batch validated. -/
def tcInsertRows (db : DB) (proj : ProjectRec) (text_field : String)
    (value_field context_field : Option String) : List Row → DB
  | [] => db
  | entry :: rest =>
    let context := context_field.bind (fun cf => rowGet? entry cf)
    let preAnn := value_field.bind (fun vf =>
      (rowGet? entry vf).bind (fun cn => (db.findCategory proj.id cn).map (fun c => c.id)))
    let u : UnannotatedRec :=
      { id := db.nextUnannotatedId, project := proj.id, kind := .textClassification,
        text := (rowGet? entry text_field).getD "", context := context,
        preAnnotationCat := preAnn }
    tcInsertRows
      { db with unannotated := db.unannotated ++ [u],
                nextUnannotatedId := db.nextUnannotatedId + 1 }
      proj text_field value_field context_field rest

/-- TextClassificationProject.add_unannotated_entries (models.py lines
343-380): two-phase validate-then-persist; a validation failure rejects the
whole batch with the database unchanged. -/
def tcAddUnannotatedEntries (db : DB) (proj : ProjectRec) (unannotated_data : List Row)
    (text_field : String) (value_field context_field : Option String) :
    (Nat × String) × DB :=
  match tcValidateRows db proj text_field value_field context_field 0 unannotated_data with
  | some e => (e, db)
  | none =>
    ((200, successMsg unannotated_data.length),
     tcInsertRows db proj text_field value_field context_field unannotated_data)

/-- Validation phase of NamedEntityRecognitionProject.add_unannotated_entries
(models.py lines 476-482): context and text field presence only. -/
def nerValidateRows (text_field : String) (context_field : Option String) :
    Nat → List Row → Option (Nat × String)
  | _, [] => none
  | index, entry :: rest =>
    let contextStep : Option (Nat × String) :=
      match context_field with
      | none => none
      | some cf =>
        if (rowGet? entry cf).isNone then some (400, contextMissingMsg index) else none
    match contextStep with
    | some e => some e
    | none =>
      if (rowGet? entry text_field).isNone then some (400, textMissingMsg index)
      else nerValidateRows text_field context_field (index + 1) rest

def nerInsertRows (db : DB) (proj : ProjectRec) (text_field : String)
    (context_field : Option String) : List Row → DB
  | [] => db
  | entry :: rest =>
    let u : UnannotatedRec :=
      { id := db.nextUnannotatedId, project := proj.id, kind := .namedEntityRecognition,
        text := (rowGet? entry text_field).getD "",
        context := context_field.bind (fun cf => rowGet? entry cf) }
    nerInsertRows
      { db with unannotated := db.unannotated ++ [u],
                nextUnannotatedId := db.nextUnannotatedId + 1 }
      proj text_field context_field rest

/-- NamedEntityRecognitionProject.add_unannotated_entries (models.py lines
471-493). -/
def nerAddUnannotatedEntries (db : DB) (proj : ProjectRec) (unannotated_data : List Row)
    (text_field : String) (context_field : Option String) : (Nat × String) × DB :=
  match nerValidateRows text_field context_field 0 unannotated_data with
  | some e => (e, db)
  | none =>
    ((200, successMsg unannotated_data.length),
     nerInsertRows db proj text_field context_field unannotated_data)

/-- Validation of MachineTranslationFluencyProject.add_unannotated_entries
(models.py lines 647-653): only the mt_system_translation field is checked
(the context check is commented out in the source). -/
def mtfValidateRows (mtField : String) : Nat → List Row → Option (Nat × String)
  | _, [] => none
  | index, entry :: rest =>
    if (rowGet? entry mtField).isNone then some (400, referenceMissingMsg index)
    else mtfValidateRows mtField (index + 1) rest

def mtfInsertRows (db : DB) (proj : ProjectRec) (mtField : String)
    (context_field : Option String) : List Row → DB
  | [] => db
  | entry :: rest =>
    let u : UnannotatedRec :=
      { id := db.nextUnannotatedId, project := proj.id,
        kind := .machineTranslationFluency,
        text := (rowGet? entry mtField).getD "",
        context := context_field.bind (fun cf => rowGet? entry cf) }
    mtfInsertRows
      { db with unannotated := db.unannotated ++ [u],
                nextUnannotatedId := db.nextUnannotatedId + 1 }
      proj mtField context_field rest

/-- MachineTranslationFluencyProject.add_unannotated_entries (models.py lines
641-664); text_field arrives as a dictionary holding mt_system_translation. -/
def mtfAddUnannotatedEntries (db : DB) (proj : ProjectRec) (unannotated_data : List Row)
    (mtField : String) (context_field : Option String) : (Nat × String) × DB :=
  match mtfValidateRows mtField 0 unannotated_data with
  | some e => (e, db)
  | none =>
    ((200, successMsg unannotated_data.length),
     mtfInsertRows db proj mtField context_field unannotated_data)

/-- Validation of MachineTranslationAdequacyProject.add_unannotated_entries
(models.py lines 687-695): reference and system-translation fields are both
required (both failures reuse the same reference-missing message). -/
def mtaValidateRows (refField mtField : String) : Nat → List Row → Option (Nat × String)
  | _, [] => none
  | index, entry :: rest =>
    if (rowGet? entry refField).isNone then some (400, referenceMissingMsg index)
    else if (rowGet? entry mtField).isNone then some (400, referenceMissingMsg index)
    else mtaValidateRows refField mtField (index + 1) rest

def mtaInsertRows (db : DB) (proj : ProjectRec) (refField mtField : String)
    (context_field : Option String) : List Row → DB
  | [] => db
  | entry :: rest =>
    let u : UnannotatedRec :=
      { id := db.nextUnannotatedId, project := proj.id,
        kind := .machineTranslationAdequacy,
        text := (rowGet? entry refField).getD "",
        mt_system_translation := rowGet? entry mtField,
        context := context_field.bind (fun cf => rowGet? entry cf) }
    mtaInsertRows
      { db with unannotated := db.unannotated ++ [u],
                nextUnannotatedId := db.nextUnannotatedId + 1 }
      proj refField mtField context_field rest

/-- MachineTranslationAdequacyProject.add_unannotated_entries (models.py
lines 680-707). -/
def mtaAddUnannotatedEntries (db : DB) (proj : ProjectRec) (unannotated_data : List Row)
    (refField mtField : String) (context_field : Option String) : (Nat × String) × DB :=
  match mtaValidateRows refField mtField 0 unannotated_data with
  | some e => (e, db)
  | none =>
    ((200, successMsg unannotated_data.length),
     mtaInsertRows db proj refField mtField context_field unannotated_data)

/-- A Python value as far as the type(x) != list guard of import_unannotated
is concerned: pandas DataFrame.to_json produces a str, json.loads of an
array produces a list of dictionaries. -/
inductive UploadParsed
  | pystr (s : String)
  | pylist (rows : List Row)
deriving DecidableEq

/-- The uploaded file as the handler sees it: the constructor records the
content type and json.loads (an external collaborator) is applied to JSON
uploads before the handler logic modelled here runs. -/
inductive UploadContent
  | json (parsed : UploadParsed)
  | csv (raw : String)
  | unsupported (contentType : String)
deriving DecidableEq

/-- pandas read_csv, modelled charitably as parsing the CSV text it is handed
with the first line as header (the handler actually passes the file content
where read_csv expects a path or file-like object). -/
def pdReadCsv (content : String) (delim : Char) : List Row :=
  match (content.splitOn "\n").filter (fun line => line ≠ "") with
  | [] => []
  | header :: dataLines =>
    let cols := header.split (fun c => c == delim)
    dataLines.map (fun line => cols.zip (line.split (fun c => c == delim)))

def jsonQuote (s : String) : String := "\"" ++ s ++ "\""

/-- pandas DataFrame.to_json(orient=records): renders the rows as a JSON
text and returns it as a Python str, not as a list. -/
def dfToJsonRecords (rows : List Row) : String :=
  "[" ++ String.intercalate ","
    (rows.map (fun r =>
      "\x7b" ++ String.intercalate ","
        (r.map (fun kv => jsonQuote kv.1 ++ ":" ++ jsonQuote kv.2)) ++ "\x7d")) ++ "]"

/-- The import_unannotated handler (api.py lines 287-330): decode the upload
by content type, guard that the decoded value is a list, wrap the text-field
argument for the MT kinds, and dispatch to the polymorphic
add_unannotated_entries. -/
def importUnannotated (db : DB) (proj : ProjectRec) (text_field : String)
    (csv_delimiter : Option Char) (value_field context_field mt_system_translation : Option String)
    (file : UploadContent) : (Nat × String) × DB :=
  let parsed : Except (Nat × String) UploadParsed :=
    match file with
    | .json p => .ok p
    | .csv raw => .ok (.pystr (dfToJsonRecords (pdReadCsv raw (csv_delimiter.getD ','))))
    | .unsupported ct => .error (400, s!"Uploaded data type {ct} is not supported")
  match parsed with
  | .error e => (e, db)
  | .ok p =>
    match p with
    | .pystr _ => ((400, "Uploaded data is not in a list of records format"), db)
    | .pylist rows =>
      match proj.ptype with
      | .textClassification =>
        tcAddUnannotatedEntries db proj rows text_field value_field context_field
      | .namedEntityRecognition =>
        nerAddUnannotatedEntries db proj rows text_field context_field
      | .machineTranslationAdequacy =>
        mtaAddUnannotatedEntries db proj rows text_field
          (mt_system_translation.getD "") context_field
      | .machineTranslationFluency =>
        mtfAddUnannotatedEntries db proj rows text_field context_field

/-- The FieldError Django raises when a filter or values argument does not
resolve to a column of the queried model. -/
def fieldErrorMsg (field : String) : String :=
  "FieldError: Cannot resolve keyword " ++ field ++ " into field"

/-- self.entries.filter(classification=category) in get_statistics
(models.py lines 387 and 500): self.entries is the base ProjectEntry
polymorphic queryset (models.py lines 41-43) and classification is a column
of the TextClassificationProjectEntry subtype table only; django-polymorphic
resolves derived-class columns only through the ClassName___field syntax, so
the bare name falls through to plain Django field resolution against the
base model and raises FieldError while the filter is being built. -/
def djangoFilterClassification (entries : List EntryRec) (category : CategoryRec) :
    Except String (List EntryRec) :=
  .error (fieldErrorMsg "classification")

/-- self.entries.values(variation) in MachineTranslationProject.get_statistics
(models.py lines 617-618): adequacy and fluency are columns of the MT entry
subtype tables only, so resolving the bare name against the base
ProjectEntry queryset raises FieldError before any aggregation runs. -/
def djangoValuesVariation (entries : List EntryRec) (variation : String) :
    Except String (List Rat) :=
  .error (fieldErrorMsg variation)

/-- TextClassificationProject.get_statistics (models.py lines 382-391): the
comprehension runs one classification filter per category, so a project with
no categories returns an empty summary and any project with a category
raises the FieldError of djangoFilterClassification. -/
def tcGetStatistics (db : DB) (proj : ProjectRec) :
    Except String (List (String × Nat)) :=
  (db.categoriesOf proj.id).mapM (fun category =>
    (djangoFilterClassification (db.entriesOf proj.id) category).map
      (fun filtered => (category.name, filtered.length)))

/-- NamedEntityRecognitionProject.get_statistics (models.py lines 495-504):
textually identical to the text-classification implementation, filtering on
a classification column that NER entries do not have either. -/
def nerGetStatistics (db : DB) (proj : ProjectRec) :
    Except String (List (String × Nat)) :=
  (db.categoriesOf proj.id).mapM (fun category =>
    (djangoFilterClassification (db.entriesOf proj.id) category).map
      (fun filtered => (category.name, filtered.length)))

/-- MachineTranslationProject.get_statistics (models.py lines 615-625):
values(variation) followed by aggregate(Avg(variation)); the values call
already raises, so the average (NULL rows excluded, NULL when empty) that
the map body would compute is never produced. -/
def mtGetStatistics (db : DB) (proj : ProjectRec) : Except String (Option Rat) :=
  (djangoValuesVariation (db.entriesOf proj.id) (mtVariation proj.ptype)).map
    (fun vals => if vals.isEmpty then none else some (vals.sum / (vals.length : Rat)))

/-- Ordered list of annotation value field names per kind (value_fields). -/
def ProjectRec.value_fields (proj : ProjectRec) : List String :=
  match proj.ptype with
  | .textClassification => ["classification"]
  | .namedEntityRecognition => ["ner_text_highlights"]
  | .machineTranslationAdequacy => ["adequacy"]
  | .machineTranslationFluency => ["fluency"]

/-- Code-point comparison of strings (Python default sort order). -/
def strLeB : List Char → List Char → Bool
  | [], _ => true
  | _ :: _, [] => false
  | a :: as, b :: bs =>
    if a.val < b.val then true
    else if b.val < a.val then false
    else strLeB as bs

def insertSorted (x : String) : List String → List String
  | [] => [x]
  | y :: ys => if strLeB x.data y.data then x :: y :: ys else y :: insertSorted x ys

/-- sorted(...) over the value-field names (insertion sort, stable). -/
def sortStrings : List String → List String
  | [] => []
  | x :: xs => insertSorted x (sortStrings xs)

/-- A Python value written into one CSV cell by export_project. -/
inductive PyCell
  | pyStr (v : String)
  | pyNat (v : Nat)
  | pyRat (v : Rat)
  | pySpans (v : List (Int × Int × String))
deriving DecidableEq

/-- entry.unannotated_source, resolved through the NOT NULL foreign key;
the fallback record covers dangling ids, which well-formed stores lack. -/
def sourceOf (db : DB) (e : EntryRec) : UnannotatedRec :=
  match db.unannotated.find? (fun u => u.id == e.unannotated_source) with
  | some u => u
  | none => { id := 0, project := 0, kind := .textClassification, text := "" }

/-- The values dictionary of each ProjectEntry subtype (models.py lines
166-173, 191-193, 220-224, 266-270), as the key-to-cell mapping the export
row writer indexes. -/
def valuesDict (db : DB) (e : EntryRec) : List (String × PyCell) :=
  match e.data with
  | .tc c => [("category", .pyStr (db.categoryName c))]
  | .mtAdequacy a _ _ _ => [("adequacy", .pyRat a)]
  | .mtFluency f _ _ => [("fluency", .pyRat f)]
  | .ner hs => [("ner_text_highlights", .pySpans (hs.filterMap (fun h => db.nerTriple h)))]

/-- The parameters dictionary of each UnannotatedProjectEntry subtype
(models.py lines 749-751, 759-761, 785-787, 807-809). -/
def parametersDict (u : UnannotatedRec) : List (String × PyCell) :=
  match u.kind with
  | .textClassification => [("text", .pyStr u.text)]
  | .namedEntityRecognition => [("text", .pyStr u.text)]
  | .machineTranslationAdequacy =>
    [("reference_translation", .pyStr u.text),
     ("mt_system_translation", .pyStr (u.mt_system_translation.getD ""))]
  | .machineTranslationFluency => [("mt_system_translation", .pyStr u.text)]

/-- One MT pre-annotation cell: the source tests the float for truthiness,
so a stored 0.0 also reports No annotation. -/
def preAnnCell : Option Rat → PyCell
  | some q => if q == 0 then .pyStr "No annotation" else .pyRat q
  | none => .pyStr "No annotation"

/-- The pre_annotations dictionary of each UnannotatedProjectEntry subtype
(models.py lines 741-747, 755-757, 774-783, 796-805); the NER subtype
returns an empty dictionary. -/
def preAnnotationsDict (db : DB) (u : UnannotatedRec) : List (String × PyCell) :=
  match u.kind with
  | .textClassification =>
    [("category", .pyStr (match u.preAnnotationCat with
       | some cid => db.categoryName cid
       | none => "No preannotation"))]
  | .namedEntityRecognition => []
  | .machineTranslationAdequacy => [("adequacy", preAnnCell u.preAnnotationAdequacy)]
  | .machineTranslationFluency => [("fluency", preAnnCell u.preAnnotationFluency)]

/-- Python dictionary indexing d[k]: raises KeyError when the key is
absent. -/
def dictGet (d : List (String × PyCell)) (k : String) : Except String PyCell :=
  match d.find? (fun kv => kv.1 == k) with
  | some kv => .ok kv.2
  | none => .error ("KeyError: " ++ k)

/-- The left-to-right list comprehension [d[k] for k in keys]. -/
def mapDictGet (d : List (String × PyCell)) : List String → Except String (List PyCell)
  | [] => .ok []
  | k :: ks =>
    match dictGet d k with
    | .error err => .error err
    | .ok v =>
      match mapDictGet d ks with
      | .error err => .error err
      | .ok vs => .ok (v :: vs)

/-- A CSV header row of export_project: id and source id, the parameter
keys, the sorted value fields, their preannotation_ twins, timestamps. -/
def headerCells (paramKeys value_fields : List String) : List PyCell :=
  (["id", "imported_text_source_id"] ++ paramKeys ++ value_fields ++
    value_fields.map (fun f => "preannotation_" ++ f) ++
    ["created_at", "updated_at"]).map PyCell.pyStr

/-- One data row of the CSV export (api.py lines 467-475): the values
lookups values[value_field] run before the preannotations lookups, so a
missing key in either dictionary aborts the request with KeyError. -/
def entryRowCells (db : DB) (vfs : List String) (e : EntryRec) :
    Except String (List PyCell) :=
  let u := sourceOf db e
  match mapDictGet (valuesDict db e) vfs with
  | .error err => .error err
  | .ok vals =>
    match mapDictGet (preAnnotationsDict db u) vfs with
    | .error err => .error err
    | .ok pres =>
      .ok ([.pyNat e.id, .pyNat e.unannotated_source] ++
        (parametersDict u).map (fun kv => kv.2) ++ vals ++ pres ++
        [.pyStr e.created_at, .pyStr e.updated_at])

/-- The entry loop of export_project CSV (api.py lines 455-475): the header
row is written from the first entry's source parameters before that entry's
data row is computed; an exception aborts the whole request (the response
is never returned), which the error result models. -/
def exportCsvLoop (db : DB) (proj : ProjectRec) (vfs : List String) :
    Bool → List EntryRec → Except String (List (List PyCell))
  | _, [] => .ok []
  | header_row_written, e :: rest =>
    let u := sourceOf db e
    let headerRows : List (List PyCell) :=
      if header_row_written then []
      else [headerCells ((parametersDict u).map (fun kv => kv.1)) vfs]
    match entryRowCells db vfs e with
    | .error err => .error err
    | .ok row =>
      match exportCsvLoop db proj vfs true rest with
      | .error err => .error err
      | .ok rows => .ok (headerRows ++ row :: rows)

/-- export_project with export_type csv (api.py lines 447-483): loop over
the entries, then write the fallback header (parameter column hardcoded to
text) when no entry wrote one. -/
def exportProjectCsv (db : DB) (proj : ProjectRec) :
    Except String (List (List PyCell)) :=
  let vfs := sortStrings proj.value_fields
  match exportCsvLoop db proj vfs false (db.entriesOf proj.id) with
  | .error err => .error err
  | .ok rows =>
    .ok (if (db.entriesOf proj.id).isEmpty then rows ++ [headerCells ["text"] vfs]
         else rows)

/-- CreateProjectSchema. -/
structure CreateProjectData where
  project_type : String
  name : String
  description : String
  talk_markdown : String
deriving DecidableEq

def tcAliases : List String :=
  ["Text Classification", "textclassification", "text-classification",
   "TextClassification", "tc", "TC"]

def mtaAliases : List String :=
  ["Machine Translation Adequacy", "machinetranslationadequacy",
   "machine-translation-adequacy", "MachineTranslationAdequacy", "mta", "MTA"]

def mtfAliases : List String :=
  ["Machine Translation Fluency", "machinetranslationfluency",
   "machine-translation-fluency", "MachineTranslationFluency", "mtf", "MTF"]

/-- create_project (api.py lines 18-42): exact membership tests of the
requested project_type string against three fixed alias lists; any other
string, including Named Entity Recognition, is rejected. -/
def createProject (db : DB) (project_data : CreateProjectData) :
    Except (Nat × String) (DB × ProjectRec) :=
  let mk (pt : ProjectType) : DB × ProjectRec :=
    let p : ProjectRec := { id := db.nextProjectId, name := project_data.name, ptype := pt }
    ({ db with projects := db.projects ++ [p], nextProjectId := db.nextProjectId + 1 }, p)
  if tcAliases.contains project_data.project_type then
    .ok (mk .textClassification)
  else if mtaAliases.contains project_data.project_type then
    .ok (mk .machineTranslationAdequacy)
  else if mtfAliases.contains project_data.project_type then
    .ok (mk .machineTranslationFluency)
  else
    let pt := project_data.project_type
    .error (404, s!"Project type {pt} is not supported")

/-- The values property of each ProjectEntry subtype, used by the
disagreement comparison: a category name, a score, or the NER span list. -/
inductive EntryValues
  | category (name : String)
  | adequacy (v : Rat)
  | fluency (v : Rat)
  | nerSpans (hs : List (Int × Int × String))
deriving DecidableEq

/-- ProjectEntry.values per subtype (models.py lines 166-173, 191-193,
220-224, 266-270). -/
def EntryRec.values (db : DB) (e : EntryRec) : EntryValues :=
  match e.data with
  | .tc c => .category (db.categoryName c)
  | .mtAdequacy a _ _ _ => .adequacy a
  | .mtFluency f _ _ => .fluency f
  | .ner hs => .nerSpans (hs.filterMap (fun h => db.nerTriple h))

/-- One record of the disagreement report: both annotators values and the
shared source text. -/
structure Disagreement where
  annotator1_values : EntryValues
  annotator2_values : EntryValues
  text : String
deriving DecidableEq

/-- QuerySet.get(unannotated_source__id=i): the unique matching row; raises
DoesNotExist or MultipleObjectsReturned otherwise. -/
def qsGetBySource (l : List EntryRec) (i : Nat) : Except String EntryRec :=
  match l.filter (fun e => e.unannotated_source == i) with
  | [e] => .ok e
  | [] => .error "DoesNotExist"
  | _ => .error "MultipleObjectsReturned"

/-- The common_ids list of export_annotator_disagreements (api.py lines
412-415): the source ids of the concatenation of both annotators entry
lists, kept when the id occurs in both lists — so a shared id occurs once
per entry that carries it. -/
def commonIds (e1 e2 : List EntryRec) : List Nat :=
  let ids1 := e1.map (fun e => e.unannotated_source)
  let ids2 := e2.map (fun e => e.unannotated_source)
  ((e1 ++ e2).map (fun e => e.unannotated_source)).filter
    (fun i => ids1.contains i && ids2.contains i)

/-- The disagreement loop of export_annotator_disagreements (api.py lines
417-428): for each common id fetch both entries and report them when their
values differ, together with the shared source text. -/
def disagreementLoop (db : DB) (e1 e2 : List EntryRec) :
    List Nat → Except String (List Disagreement)
  | [] => .ok []
  | i :: rest =>
    match qsGetBySource e1 i with
    | .error err => .error err
    | .ok entry1 =>
      match qsGetBySource e2 i with
      | .error err => .error err
      | .ok entry2 =>
        match disagreementLoop db e1 e2 rest with
        | .error err => .error err
        | .ok ds =>
          if entry1.values db ≠ entry2.values db then
            .ok ({ annotator1_values := entry1.values db,
                   annotator2_values := entry2.values db,
                   text := db.sourceText entry1.unannotated_source } :: ds)
          else
            .ok ds

/-- export_annotator_disagreements (api.py lines 383-437), after both
annotators resolved. -/
def exportAnnotatorDisagreements (db : DB) (proj : ProjectRec)
    (a1 a2 : PrivateAnnotatorRec) : Except String (List Disagreement) :=
  let annotator1_entries := db.getAnnotatorsAnnotations proj.id a1.id
  let annotator2_entries := db.getAnnotatorsAnnotations proj.id a2.id
  disagreementLoop db annotator1_entries annotator2_entries
    (commonIds annotator1_entries annotator2_entries)

/-- Substring test used to state whether an error message names a row
index. -/
def strContainsSub (hay needle : String) : Bool :=
  (List.range (hay.data.length + 1)).any
    (fun i => needle.data.isPrefixOf (hay.data.drop i))

/-- Does the message name the given row index the way the row-indexed
validation messages do. -/
def namesRowIndex (msg : String) (k : Nat) : Bool :=
  strContainsSub msg ("index " ++ toString k)

/-- Whether one row passes the per-row validation of
TextClassificationProject.add_unannotated_entries (the row check reports no
error; the enumerate index only affects the error text, not whether one is
reported). -/
def rowPassesTc (db : DB) (proj : ProjectRec) (tf : String) (vf cf : Option String)
    (r : Row) : Bool :=
  (tcRowError db proj tf vf cf 0 r).isNone

/-- The contribution of one common id to the disagreement report: the
record appended when both lookups succeed and the values differ. -/
def disagreementAt (db : DB) (e1 e2 : List EntryRec) (i : Nat) : Option Disagreement :=
  match qsGetBySource e1 i, qsGetBySource e2 i with
  | .ok x, .ok y =>
    if x.values db ≠ y.values db then
      some { annotator1_values := x.values db, annotator2_values := y.values db,
             text := db.sourceText x.unannotated_source }
    else none
  | _, _ => none

/-- C4: For every project with zero imported (unannotated) entries, the
completion property of any private annotator of that project equals 100. -/
theorem completion_zero_imported_is_100 (db : DB) (a : PrivateAnnotatorRec)
    (h : db.importedTexts a.project = []) :
    a.completion db = .ok 100 := by
  unfold PrivateAnnotatorRec.completion
  simp [h]

theorem completion_zero_imported_is_100_witness :
    ({ } : DB).importedTexts 1 = [] ∧
      PrivateAnnotatorRec.completion { } { id := 1, project := 1, username := "ann" } = .ok 100 :=
  ⟨rfl, completion_zero_imported_is_100 { } { id := 1, project := 1, username := "ann" } rfl⟩

/-- C3: the claim says completion returns the rounded percentage of imported
entries judged by the annotator. It does not: whenever the project has at
least one imported entry, the code evaluates float() on the QuerySet of the
annotators entries and raises TypeError instead of returning a number. -/
theorem completion_raises_type_error (db : DB) (a : PrivateAnnotatorRec)
    (h : db.importedTexts a.project ≠ []) :
    a.completion db =
      .error "TypeError: float() argument must be a string or a number, not QuerySet" := by
  unfold PrivateAnnotatorRec.completion
  have hlen : (db.importedTexts a.project).length ≠ 0 := by
    exact fun hz => h (List.length_eq_zero.mp hz)
  simp only [hlen, if_false, ite_false, if_neg]
  rfl

theorem completion_raises_type_error_witness :
    ({ unannotated := [{ id := 1, project := 1, kind := .textClassification, text := "t" }] } : DB).importedTexts 1 ≠ [] ∧
      PrivateAnnotatorRec.completion
        { unannotated := [{ id := 1, project := 1, kind := .textClassification, text := "t" }] }
        { id := 1, project := 1, username := "ann" } =
        .error "TypeError: float() argument must be a string or a number, not QuerySet" :=
  ⟨by decide,
   completion_raises_type_error
     { unannotated := [{ id := 1, project := 1, kind := .textClassification, text := "t" }] }
     { id := 1, project := 1, username := "ann" } (by decide)⟩

/-- C5: for every project kind, add_entry with an unannotated_source id that
does not belong to this project never succeeds (so no entry is created),
and, whenever the kind-specific payload prechecks pass, it fails with the
404 unannotated-source-not-found error. -/
theorem add_entry_wrong_project_not_found (db : DB) (proj : ProjectRec)
    (annotator : Nat) (entry_data : EntryIn)
    (hsrc : db.findSource entry_data.unannotated_source proj.id = none) :
    (∀ r, addEntry db proj annotator entry_data ≠ .ok r) ∧
      (payloadPrecheck db proj entry_data.payload = true →
        addEntry db proj annotator entry_data =
          .error (404, srcNotFoundMsg entry_data.unannotated_source proj.name)) := by
  unfold addEntry payloadPrecheck tcAddEntry nerAddEntry mtAddEntry
  cases hpt : proj.ptype <;>
    simp only [hsrc] <;>
    constructor
  case textClassification.left =>
    cases hcn : entry_data.payload.category_name with
    | none => intro r; simp
    | some cname =>
      cases hcat : db.findCategory proj.id cname with
      | none => intro r; simp [hcn, hcat]
      | some c => intro r; simp [hcn, hcat]
  case textClassification.right =>
    intro hpre
    cases hcn : entry_data.payload.category_name with
    | none => simp [hcn] at hpre
    | some cname =>
      cases hcat : db.findCategory proj.id cname with
      | none => simp [hcn, hcat] at hpre
      | some c => simp [hcn, hcat]
  case machineTranslationAdequacy.left =>
    cases ha : entry_data.payload.adequacy with
    | none => intro r; simp [ha]
    | some q => intro r; simp [ha]
  case machineTranslationAdequacy.right =>
    intro hpre
    cases ha : entry_data.payload.adequacy with
    | none => simp [ha] at hpre
    | some q => simp [ha]
  case machineTranslationFluency.left =>
    cases hf : entry_data.payload.fluency with
    | none => intro r; simp [hf]
    | some q => intro r; simp [hf]
  case machineTranslationFluency.right =>
    intro hpre
    cases hf : entry_data.payload.fluency with
    | none => simp [hf] at hpre
    | some q => simp [hf]
  case namedEntityRecognition.left =>
    cases hh : entry_data.payload.ner_text_highlights with
    | none => intro r; simp [hh]
    | some hs => intro r; simp [hh]
  case namedEntityRecognition.right =>
    intro hpre
    cases hh : entry_data.payload.ner_text_highlights with
    | none => simp [hh] at hpre
    | some hs => simp [hh]

theorem add_entry_wrong_project_not_found_witness :
    (DB.findSource { } 7 1 = none ∧ payloadPrecheck { }
        { id := 1, name := "P", ptype := .namedEntityRecognition }
        { ner_text_highlights := some [] } = true) ∧
      addEntry { } { id := 1, name := "P", ptype := .namedEntityRecognition } 1
          { unannotated_source := 7, payload := { ner_text_highlights := some [] } } =
        .error (404, srcNotFoundMsg 7 "P") :=
  ⟨⟨by decide, by decide⟩,
   (add_entry_wrong_project_not_found { }
      { id := 1, name := "P", ptype := .namedEntityRecognition } 1
      { unannotated_source := 7, payload := { ner_text_highlights := some [] } }
      (by decide)).2 (by decide)⟩

/-- C7: the spec example says importing the CSV upload text,foo,bar with
text_field=text into a text-classification project with Category category1
yields 2 unannotated entries. It does not: the handler converts the parsed
dataframe with to_json(orient=records), which yields a Python str, so the
type(unannotated_data) != list guard rejects every CSV import with 400 and
the store is unchanged (zero entries created). This contradicts the
repository test test_import_unannotated_entries, which expects 200 and a
success detail on this exact code path. -/
theorem csv_import_rejected_as_not_list :
    importUnannotated
      { projects := [{ id := 1, name := "TCProject", ptype := .textClassification }],
        categories := [{ id := 1, project := 1, name := "category1" }] }
      { id := 1, name := "TCProject", ptype := .textClassification }
      "text" none none none none (.csv "text\nfoo\nbar\n") =
    ((400, "Uploaded data is not in a list of records format"),
     { projects := [{ id := 1, name := "TCProject", ptype := .textClassification }],
       categories := [{ id := 1, project := 1, name := "category1" }] }) := by
  decide

/-- C9: the claim says an MT add_entry whose payload contains a highlight
missing start, end or category fails with a 400 missing-data error and
persists nothing. It does not: the missing-field check in the source is a
no-op pass, so the call succeeds, the entry row is created, and the
TextHighlight row is persisted with the absent span end and category. -/
theorem mt_highlight_missing_fields_persisted :
    mtAddEntry
        { unannotated := [{ id := 10, project := 1,
                            kind := .machineTranslationFluency, text := "src" }] }
        { id := 1, name := "MTF", ptype := .machineTranslationFluency } 1
        { unannotated_source := 10,
          payload := { fluency := some 3,
                       target_text_highlights := some [{ beginning := some 0 }] } } =
      .ok ({ unannotated := [{ id := 10, project := 1,
                               kind := .machineTranslationFluency, text := "src" }],
             entries := [{ id := 1, project := 1, unannotated_source := 10,
                           annotator := 1, data := .mtFluency 3 none [1] }],
             highlights := [{ id := 1, span_start := some 0, span_end := none,
                              category := none }],
             nextEntryId := 2, nextHighlightId := 2 },
           { id := 1, project := 1, unannotated_source := 10, annotator := 1,
             data := .mtFluency 3 none [1] }) ∧
    mtAddEntry
        { unannotated := [{ id := 10, project := 1,
                            kind := .machineTranslationFluency, text := "src" }] }
        { id := 1, name := "MTF", ptype := .machineTranslationFluency } 1
        { unannotated_source := 10,
          payload := { fluency := some 3,
                       target_text_highlights := some [{ beginning := some 0 }] } } ≠
      .error (400, "Missing data") := by
  constructor
  · decide
  · decide

/-- C10 counterexample: Named Entity Recognition is one of the four fixed
kind names, and TEXT CLASSIFICATION matches Text Classification
case-insensitively, yet create_project rejects both with the
unsupported-project-type error: the handler has no NER branch and matches
the alias lists exactly, not case-insensitively. -/
theorem create_project_ner_unsupported :
    createProject { }
        { project_type := "Named Entity Recognition", name := "N",
          description := "d", talk_markdown := "m" } =
      .error (404, "Project type Named Entity Recognition is not supported") ∧
    createProject { }
        { project_type := "TEXT CLASSIFICATION", name := "T",
          description := "d", talk_markdown := "m" } =
      .error (404, "Project type TEXT CLASSIFICATION is not supported") := by
  constructor
  · decide
  · decide

/-- C10 amended: project creation dispatches exactly once on the requested
project_type string by exact membership in three fixed alias lists (Text
Classification, Machine Translation Adequacy, Machine Translation Fluency);
a matching request creates a project of that concrete kind, and every other
string — including Named Entity Recognition and case variants outside the
lists — fails with the unsupported-project-type error. -/
theorem create_project_dispatch_exact_aliases (db : DB) (pd : CreateProjectData) :
    (pd.project_type ∈ tcAliases →
      createProject db pd =
        .ok ({ db with
                projects := db.projects ++
                  [{ id := db.nextProjectId, name := pd.name, ptype := .textClassification }],
                nextProjectId := db.nextProjectId + 1 },
             { id := db.nextProjectId, name := pd.name, ptype := .textClassification })) ∧
    (pd.project_type ∉ tcAliases →
      pd.project_type ∈ mtaAliases →
      createProject db pd =
        .ok ({ db with
                projects := db.projects ++
                  [{ id := db.nextProjectId, name := pd.name,
                     ptype := .machineTranslationAdequacy }],
                nextProjectId := db.nextProjectId + 1 },
             { id := db.nextProjectId, name := pd.name,
               ptype := .machineTranslationAdequacy })) ∧
    (pd.project_type ∉ tcAliases →
      pd.project_type ∉ mtaAliases →
      pd.project_type ∈ mtfAliases →
      createProject db pd =
        .ok ({ db with
                projects := db.projects ++
                  [{ id := db.nextProjectId, name := pd.name,
                     ptype := .machineTranslationFluency }],
                nextProjectId := db.nextProjectId + 1 },
             { id := db.nextProjectId, name := pd.name,
               ptype := .machineTranslationFluency })) ∧
    (pd.project_type ∉ tcAliases →
      pd.project_type ∉ mtaAliases →
      pd.project_type ∉ mtfAliases →
      createProject db pd =
        .error (404, "Project type " ++ pd.project_type ++ " is not supported")) := by
  refine ⟨?_, ?_, ?_, ?_⟩
  · intro h1; simp [createProject, h1]
  · intro h1 h2; simp [createProject, h1, h2]
  · intro h1 h2 h3; simp [createProject, h1, h2, h3]
  · intro h1 h2 h3
    simp [createProject, h1, h2, h3]
    rfl

theorem create_project_dispatch_exact_aliases_witness :
    "tc" ∈ tcAliases ∧
      createProject { }
          { project_type := "tc", name := "P", description := "d", talk_markdown := "m" } =
        .ok ({ projects := [{ id := 1, name := "P", ptype := .textClassification }],
               nextProjectId := 2 },
             { id := 1, name := "P", ptype := .textClassification }) :=
  ⟨by decide,
   (create_project_dispatch_exact_aliases { }
      { project_type := "tc", name := "P", description := "d", talk_markdown := "m" }).1
     (by decide)⟩

set_option maxRecDepth 4096 in
/-- C2 counterexample: a one-row batch whose row 0 references the missing
category nope is rejected with 400 and zero entries are created, but the
error detail is the missing-category message naming the category and the
project; it does not name row 0 index (the message contains no index
wording at all). -/
theorem tc_import_category_error_lacks_row_index :
    tcAddUnannotatedEntries { }
        { id := 1, name := "P", ptype := .textClassification }
        [[("text", "foo"), ("cat", "nope")]] "text" (some "cat") none =
      ((400, categoryMissingMsg "nope" "P"), { }) ∧
    namesRowIndex (categoryMissingMsg "nope" "P") 0 = false := by
  constructor
  · decide
  · decide

lemma tcRowError_isNone_any_index (db : DB) (proj : ProjectRec) (tf : String)
    (vf cf : Option String) (r : Row) (idx : Nat)
    (h : tcRowError db proj tf vf cf 0 r = none) :
    tcRowError db proj tf vf cf idx r = none := by
  unfold tcRowError at h ⊢
  cases hcatE : tcRowCategoryError db proj vf r with
  | some e => rw [hcatE] at h; simp at h
  | none =>
    rw [hcatE] at h
    change rowTextContextError tf cf 0 r = none at h
    change rowTextContextError tf cf idx r = none
    unfold rowTextContextError at h ⊢
    cases cf with
    | none =>
      cases htg : (rowGet? r tf).isNone with
      | true => simp [htg] at h
      | false => simp [htg]
    | some cfName =>
      cases hcg : (rowGet? r cfName).isNone with
      | true => simp [hcg] at h
      | false =>
        cases htg : (rowGet? r tf).isNone with
        | true => simp [hcg, htg] at h
        | false => simp [hcg, htg]

lemma tcValidateRows_cons_pass (db : DB) (proj : ProjectRec) (tf : String)
    (vf cf : Option String) (idx : Nat) (r : Row) (rest : List Row)
    (h : rowPassesTc db proj tf vf cf r = true) :
    tcValidateRows db proj tf vf cf idx (r :: rest) =
      tcValidateRows db proj tf vf cf (idx + 1) rest := by
  have h0 : tcRowError db proj tf vf cf idx r = none :=
    tcRowError_isNone_any_index db proj tf vf cf r idx
      (Option.isNone_iff_eq_none.mp h)
  have hstep : tcValidateRows db proj tf vf cf idx (r :: rest) =
      match tcRowError db proj tf vf cf idx r with
      | some e => some e
      | none => tcValidateRows db proj tf vf cf (idx + 1) rest := rfl
  rw [hstep, h0]

lemma tcValidateRows_append_pass (db : DB) (proj : ProjectRec) (tf : String)
    (vf cf : Option String) (pre rest : List Row)
    (h : ∀ r ∈ pre, rowPassesTc db proj tf vf cf r = true) :
    ∀ idx, tcValidateRows db proj tf vf cf idx (pre ++ rest) =
      tcValidateRows db proj tf vf cf (idx + pre.length) rest := by
  induction pre with
  | nil => intro idx; simp
  | cons r pre ih =>
    intro idx
    have hr : rowPassesTc db proj tf vf cf r = true := h r (List.mem_cons_self r pre)
    have hrest : ∀ x ∈ pre, rowPassesTc db proj tf vf cf x = true :=
      fun x hx => h x (List.mem_cons_of_mem r hx)
    rw [List.cons_append, tcValidateRows_cons_pass db proj tf vf cf idx r (pre ++ rest) hr,
      ih hrest (idx + 1)]
    congr 1
    simp [List.length_cons]
    omega

lemma tcValidateRows_category_fail (db : DB) (proj : ProjectRec) (tf : String)
    (cf : Option String) (idx : Nat) (row : Row) (post : List Row)
    (vfName cname : String)
    (hget : rowGet? row vfName = some cname)
    (hcat : db.findCategory proj.id cname = none) :
    tcValidateRows db proj tf (some vfName) cf idx (row :: post) =
      some (400, categoryMissingMsg cname proj.name) := by
  have h0 : tcRowError db proj tf (some vfName) cf idx row =
      some (400, categoryMissingMsg cname proj.name) := by
    unfold tcRowError tcRowCategoryError
    simp [hget, hcat]
  have hstep : tcValidateRows db proj tf (some vfName) cf idx (row :: post) =
      match tcRowError db proj tf (some vfName) cf idx row with
      | some e => some e
      | none => tcValidateRows db proj tf (some vfName) cf (idx + 1) post := rfl
  rw [hstep, h0]

lemma tcInsertRows_length (db : DB) (proj : ProjectRec) (tf : String)
    (vf cf : Option String) (rows : List Row) :
    ((tcInsertRows db proj tf vf cf rows).unannotated).length =
      db.unannotated.length + rows.length := by
  induction rows generalizing db with
  | nil => simp [tcInsertRows]
  | cons r rest ih =>
    unfold tcInsertRows
    rw [ih]
    simp
    omega

/-- C2 amended: batch import into a text-classification project is
validate-then-persist: any validation failure rejects the whole batch with
the store unchanged (zero entries created) and returns the computed error;
a fully valid batch of N rows is persisted, creating exactly N unannotated
entries; and when the first failing row k references a Category name absent
from the project, the 400 detail is the missing-category message, which
names the offending category and the project rather than row k's index
(row-index naming is used by the missing text-field and context-field
errors instead). -/
theorem tc_add_unannotated_batch_behavior (db : DB) (proj : ProjectRec)
    (rows : List Row) (tf : String) (vf cf : Option String) :
    (∀ e, tcValidateRows db proj tf vf cf 0 rows = some e →
        tcAddUnannotatedEntries db proj rows tf vf cf = (e, db)) ∧
    (tcValidateRows db proj tf vf cf 0 rows = none →
        tcAddUnannotatedEntries db proj rows tf vf cf =
          ((200, successMsg rows.length), tcInsertRows db proj tf vf cf rows) ∧
        ((tcInsertRows db proj tf vf cf rows).unannotated).length =
          db.unannotated.length + rows.length) ∧
    (∀ pre row post vfName cname,
        vf = some vfName →
        rows = pre ++ row :: post →
        (∀ r ∈ pre, rowPassesTc db proj tf vf cf r = true) →
        rowGet? row vfName = some cname →
        db.findCategory proj.id cname = none →
        tcAddUnannotatedEntries db proj rows tf vf cf =
          ((400, categoryMissingMsg cname proj.name), db)) := by
  refine ⟨?_, ?_, ?_⟩
  · intro e he
    unfold tcAddUnannotatedEntries
    rw [he]
  · intro hnone
    constructor
    · unfold tcAddUnannotatedEntries
      rw [hnone]
    · exact tcInsertRows_length db proj tf vf cf rows
  · intro pre row post vfName cname hvf hrows hpre hget hcat
    subst hvf
    subst hrows
    have hval : tcValidateRows db proj tf (some vfName) cf 0 (pre ++ row :: post) =
        some (400, categoryMissingMsg cname proj.name) := by
      rw [tcValidateRows_append_pass db proj tf (some vfName) cf pre (row :: post) hpre 0,
        tcValidateRows_category_fail db proj tf cf (0 + pre.length) row post vfName cname
          hget hcat]
    unfold tcAddUnannotatedEntries
    rw [hval]

theorem tc_add_unannotated_batch_behavior_witness :
    ((some "cat" : Option String) = some "cat" ∧
      ([[("text", "a"), ("cat", "good")], [("text", "b"), ("cat", "bad")]] : List Row) =
        [[("text", "a"), ("cat", "good")]] ++ [("text", "b"), ("cat", "bad")] :: [] ∧
      (∀ r ∈ ([[("text", "a"), ("cat", "good")]] : List Row),
        rowPassesTc { categories := [{ id := 1, project := 1, name := "good" }] }
          { id := 1, name := "P", ptype := .textClassification } "text"
          (some "cat") none r = true) ∧
      rowGet? [("text", "b"), ("cat", "bad")] "cat" = some "bad" ∧
      DB.findCategory { categories := [{ id := 1, project := 1, name := "good" }] } 1 "bad" = none) ∧
    tcAddUnannotatedEntries { categories := [{ id := 1, project := 1, name := "good" }] }
        { id := 1, name := "P", ptype := .textClassification }
        [[("text", "a"), ("cat", "good")], [("text", "b"), ("cat", "bad")]]
        "text" (some "cat") none =
      ((400, categoryMissingMsg "bad" "P"),
       { categories := [{ id := 1, project := 1, name := "good" }] }) :=
  ⟨⟨rfl, rfl, by decide, rfl, rfl⟩,
   (tc_add_unannotated_batch_behavior
      { categories := [{ id := 1, project := 1, name := "good" }] }
      { id := 1, name := "P", ptype := .textClassification }
      [[("text", "a"), ("cat", "good")], [("text", "b"), ("cat", "bad")]]
      "text" (some "cat") none).2.2
     [[("text", "a"), ("cat", "good")]] [("text", "b"), ("cat", "bad")] []
     "cat" "bad" rfl rfl (by decide) rfl rfl⟩

/-- C1 counterexample: two private annotators who judged one shared source
and disagree on it. The claim says the report holds exactly one disagreement
record; the handler scans the concatenation of both annotators entry lists
when building common_ids, so the shared id is visited twice and the report
holds two identical records. -/
theorem export_disagreements_duplicate_record :
    exportAnnotatorDisagreements
        { categories := [{ id := 1, project := 1, name := "A" },
                         { id := 2, project := 1, name := "B" }],
          unannotated := [{ id := 10, project := 1, kind := .textClassification,
                            text := "shared" }],
          entries := [{ id := 1, project := 1, unannotated_source := 10, annotator := 1,
                        data := .tc 1 },
                      { id := 2, project := 1, unannotated_source := 10, annotator := 2,
                        data := .tc 2 }],
          annotators := [{ id := 1, project := 1, username := "ann1" },
                         { id := 2, project := 1, username := "ann2" }] }
        { id := 1, name := "P", ptype := .textClassification }
        { id := 1, project := 1, username := "ann1" }
        { id := 2, project := 1, username := "ann2" } =
      .ok [{ annotator1_values := .category "A", annotator2_values := .category "B",
             text := "shared" },
           { annotator1_values := .category "A", annotator2_values := .category "B",
             text := "shared" }] := by
  decide

lemma filter_source_single (l : List EntryRec) (x : EntryRec) (i : Nat)
    (hnd : (l.map (fun e => e.unannotated_source)).Nodup)
    (hx : x ∈ l) (hus : x.unannotated_source = i) :
    l.filter (fun e => e.unannotated_source == i) = [x] := by
  induction l with
  | nil => cases hx
  | cons y ys ih =>
    rw [List.map_cons, List.nodup_cons] at hnd
    obtain ⟨hy, hnd2⟩ := hnd
    rcases List.mem_cons.mp hx with hxy | hmem
    · subst hxy
      have hfil : ys.filter (fun e => e.unannotated_source == i) = [] := by
        apply List.filter_eq_nil_iff.mpr
        intro a ha
        simp only [beq_iff_eq]
        intro hai
        exact hy (List.mem_map.mpr ⟨a, ha, by rw [hai, ← hus]⟩)
      rw [List.filter_cons]
      simp [hus, hfil]
    · have hne : y.unannotated_source ≠ i := by
        intro hyi
        exact hy (List.mem_map.mpr ⟨x, hmem, by rw [hus, ← hyi]⟩)
      rw [List.filter_cons]
      simp only [beq_iff_eq, hne, if_false, ite_false]
      exact ih hnd2 hmem

lemma qsGet_ok_of_nodup (l : List EntryRec) (x : EntryRec) (i : Nat)
    (hnd : (l.map (fun e => e.unannotated_source)).Nodup)
    (hx : x ∈ l) (hus : x.unannotated_source = i) :
    qsGetBySource l i = .ok x := by
  unfold qsGetBySource
  rw [filter_source_single l x i hnd hx hus]

lemma disagreementLoop_eq_filterMap (db : DB) (e1 e2 : List EntryRec)
    (ids : List Nat)
    (h : ∀ i ∈ ids, (∃ x, qsGetBySource e1 i = .ok x) ∧
      (∃ y, qsGetBySource e2 i = .ok y)) :
    disagreementLoop db e1 e2 ids = .ok (ids.filterMap (disagreementAt db e1 e2)) := by
  induction ids with
  | nil => rfl
  | cons i rest ih =>
    obtain ⟨⟨x, hx⟩, ⟨y, hy⟩⟩ := h i (List.mem_cons_self i rest)
    have hrest := ih (fun j hj => h j (List.mem_cons_of_mem i hj))
    have hstep : disagreementLoop db e1 e2 (i :: rest) =
        match qsGetBySource e1 i with
        | .error err => .error err
        | .ok entry1 =>
          match qsGetBySource e2 i with
          | .error err => .error err
          | .ok entry2 =>
            match disagreementLoop db e1 e2 rest with
            | .error err => .error err
            | .ok ds =>
              if entry1.values db ≠ entry2.values db then
                .ok ({ annotator1_values := entry1.values db,
                       annotator2_values := entry2.values db,
                       text := db.sourceText entry1.unannotated_source } :: ds)
              else
                .ok ds := rfl
    rw [hstep, hx, hy, hrest]
    rw [List.filterMap_cons]
    unfold disagreementAt
    rw [hx, hy]
    by_cases hv : x.values db = y.values db
    · simp [hv]
    · simp [hv]

lemma mem_ids_of_mem_commonIds (e1 e2 : List EntryRec) (i : Nat)
    (h : i ∈ commonIds e1 e2) :
    i ∈ e1.map (fun e => e.unannotated_source) ∧
      i ∈ e2.map (fun e => e.unannotated_source) := by
  unfold commonIds at h
  obtain ⟨hmem, hcond⟩ := List.mem_filter.mp h
  rw [Bool.and_eq_true] at hcond
  exact ⟨by simpa using hcond.1, by simpa using hcond.2⟩

lemma filterMap_eq_replicate_count {D : Type} (g : Nat → Option D) (s : Nat) (d : D)
    (l : List Nat) (hg : g s = some d) (h0 : ∀ i ∈ l, i ≠ s → g i = none) :
    l.filterMap g = List.replicate (l.count s) d := by
  induction l with
  | nil => rfl
  | cons i rest ih =>
    have hrest := ih (fun j hj hne => h0 j (List.mem_cons_of_mem i hj) hne)
    by_cases hi : i = s
    · subst hi
      rw [List.filterMap_cons, hg, List.count_cons_self, List.replicate_succ, hrest]
    · rw [List.filterMap_cons, h0 i (List.mem_cons_self i rest) hi,
        List.count_cons_of_ne (Ne.symm hi), hrest]

lemma commonIds_gets (db : DB) (e1 e2 : List EntryRec) (i : Nat)
    (hnd1 : (e1.map (fun e => e.unannotated_source)).Nodup)
    (hnd2 : (e2.map (fun e => e.unannotated_source)).Nodup)
    (hi : i ∈ commonIds e1 e2) :
    (∃ x, qsGetBySource e1 i = .ok x ∧ x ∈ e1 ∧ x.unannotated_source = i) ∧
      (∃ y, qsGetBySource e2 i = .ok y ∧ y ∈ e2 ∧ y.unannotated_source = i) := by
  obtain ⟨h1, h2⟩ := mem_ids_of_mem_commonIds e1 e2 i hi
  obtain ⟨x, hxmem, hxus⟩ := List.mem_map.mp h1
  obtain ⟨y, hymem, hyus⟩ := List.mem_map.mp h2
  exact ⟨⟨x, qsGet_ok_of_nodup e1 x i hnd1 hxmem hxus, hxmem, hxus⟩,
         ⟨y, qsGet_ok_of_nodup e2 y i hnd2 hymem hyus, hymem, hyus⟩⟩

/-- C1 amended: in the disagreement export for two private annotators who
each judged every source at most once, identical values on every shared
source id produce an empty disagreement list; values differing on exactly
one shared source id produce exactly two identical disagreement records —
the handler visits the shared id once per annotator while scanning the
concatenation of both entry lists — each record holding both annotators
values and the shared source text. -/
theorem export_disagreements_shared_values (db : DB) (proj : ProjectRec)
    (a1 a2 : PrivateAnnotatorRec)
    (hnd1 : ((db.getAnnotatorsAnnotations proj.id a1.id).map
      (fun e => e.unannotated_source)).Nodup)
    (hnd2 : ((db.getAnnotatorsAnnotations proj.id a2.id).map
      (fun e => e.unannotated_source)).Nodup) :
    ((∀ x ∈ db.getAnnotatorsAnnotations proj.id a1.id,
        ∀ y ∈ db.getAnnotatorsAnnotations proj.id a2.id,
        x.unannotated_source = y.unannotated_source →
        x.values db = y.values db) →
      exportAnnotatorDisagreements db proj a1 a2 = .ok []) ∧
    (∀ s x1 x2,
      x1 ∈ db.getAnnotatorsAnnotations proj.id a1.id →
      x2 ∈ db.getAnnotatorsAnnotations proj.id a2.id →
      x1.unannotated_source = s → x2.unannotated_source = s →
      x1.values db ≠ x2.values db →
      (∀ x ∈ db.getAnnotatorsAnnotations proj.id a1.id,
        ∀ y ∈ db.getAnnotatorsAnnotations proj.id a2.id,
        x.unannotated_source = y.unannotated_source →
        x.unannotated_source ≠ s →
        x.values db = y.values db) →
      exportAnnotatorDisagreements db proj a1 a2 =
        .ok [{ annotator1_values := x1.values db, annotator2_values := x2.values db,
               text := db.sourceText s },
             { annotator1_values := x1.values db, annotator2_values := x2.values db,
               text := db.sourceText s }]) := by
  have hloop : disagreementLoop db (db.getAnnotatorsAnnotations proj.id a1.id)
      (db.getAnnotatorsAnnotations proj.id a2.id)
      (commonIds (db.getAnnotatorsAnnotations proj.id a1.id)
        (db.getAnnotatorsAnnotations proj.id a2.id)) =
      .ok ((commonIds (db.getAnnotatorsAnnotations proj.id a1.id)
        (db.getAnnotatorsAnnotations proj.id a2.id)).filterMap
        (disagreementAt db (db.getAnnotatorsAnnotations proj.id a1.id)
          (db.getAnnotatorsAnnotations proj.id a2.id))) := by
    apply disagreementLoop_eq_filterMap
    intro i hi
    obtain ⟨⟨x, hxok, _, _⟩, ⟨y, hyok, _, _⟩⟩ :=
      commonIds_gets db _ _ i hnd1 hnd2 hi
    exact ⟨⟨x, hxok⟩, ⟨y, hyok⟩⟩
  constructor
  · intro heq
    unfold exportAnnotatorDisagreements
    rw [hloop]
    congr 1
    apply List.filterMap_eq_nil_iff.mpr
    intro i hi
    obtain ⟨⟨x, hxok, hxmem, hxus⟩, ⟨y, hyok, hymem, hyus⟩⟩ :=
      commonIds_gets db _ _ i hnd1 hnd2 hi
    unfold disagreementAt
    rw [hxok, hyok]
    have hv := heq x hxmem y hymem (hxus.trans hyus.symm)
    simp [hv]
  · intro s x1 x2 hx1 hx2 hus1 hus2 hneq hother
    unfold exportAnnotatorDisagreements
    rw [hloop]
    have hg : disagreementAt db (db.getAnnotatorsAnnotations proj.id a1.id)
        (db.getAnnotatorsAnnotations proj.id a2.id) s =
        some { annotator1_values := x1.values db, annotator2_values := x2.values db,
               text := db.sourceText s } := by
      unfold disagreementAt
      rw [qsGet_ok_of_nodup _ x1 s hnd1 hx1 hus1,
        qsGet_ok_of_nodup _ x2 s hnd2 hx2 hus2]
      rw [← hus1]
      simp [hneq]
    have h0 : ∀ i ∈ commonIds (db.getAnnotatorsAnnotations proj.id a1.id)
        (db.getAnnotatorsAnnotations proj.id a2.id), i ≠ s →
        disagreementAt db (db.getAnnotatorsAnnotations proj.id a1.id)
          (db.getAnnotatorsAnnotations proj.id a2.id) i = none := by
      intro i hi hne
      obtain ⟨⟨x, hxok, hxmem, hxus⟩, ⟨y, hyok, hymem, hyus⟩⟩ :=
        commonIds_gets db _ _ i hnd1 hnd2 hi
      unfold disagreementAt
      rw [hxok, hyok]
      have hv := hother x hxmem y hymem (hxus.trans hyus.symm) (by rw [hxus]; exact hne)
      simp [hv]
    rw [filterMap_eq_replicate_count _ s _ _ hg h0]
    have hs1 : s ∈ (db.getAnnotatorsAnnotations proj.id a1.id).map
        (fun e => e.unannotated_source) := List.mem_map.mpr ⟨x1, hx1, hus1⟩
    have hs2 : s ∈ (db.getAnnotatorsAnnotations proj.id a2.id).map
        (fun e => e.unannotated_source) := List.mem_map.mpr ⟨x2, hx2, hus2⟩
    have hcount : ((commonIds (db.getAnnotatorsAnnotations proj.id a1.id)
        (db.getAnnotatorsAnnotations proj.id a2.id)).count s) = 2 := by
      unfold commonIds
      rw [List.count_filter (by simp [hs1, hs2])]
      rw [List.map_append, List.count_append]
      rw [List.count_eq_one_of_mem hnd1 hs1, List.count_eq_one_of_mem hnd2 hs2]
    rw [hcount]
    rfl

theorem export_disagreements_shared_values_witness :
    exportAnnotatorDisagreements
        { categories := [{ id := 1, project := 1, name := "A" },
                         { id := 2, project := 1, name := "B" }],
          unannotated := [{ id := 10, project := 1, kind := .textClassification,
                            text := "shared" },
                          { id := 11, project := 1, kind := .textClassification,
                            text := "agreed" }],
          entries := [{ id := 1, project := 1, unannotated_source := 10, annotator := 1,
                        data := .tc 1 },
                      { id := 2, project := 1, unannotated_source := 11, annotator := 1,
                        data := .tc 1 },
                      { id := 3, project := 1, unannotated_source := 10, annotator := 2,
                        data := .tc 2 },
                      { id := 4, project := 1, unannotated_source := 11, annotator := 2,
                        data := .tc 1 }],
          annotators := [{ id := 1, project := 1, username := "ann1" },
                         { id := 2, project := 1, username := "ann2" }] }
        { id := 1, name := "P", ptype := .textClassification }
        { id := 1, project := 1, username := "ann1" }
        { id := 2, project := 1, username := "ann2" } =
      .ok [{ annotator1_values :=
               EntryRec.values
                 { categories := [{ id := 1, project := 1, name := "A" },
                                  { id := 2, project := 1, name := "B" }],
                   unannotated := [{ id := 10, project := 1, kind := .textClassification,
                                     text := "shared" },
                                   { id := 11, project := 1, kind := .textClassification,
                                     text := "agreed" }],
                   entries := [{ id := 1, project := 1, unannotated_source := 10,
                                 annotator := 1, data := .tc 1 },
                               { id := 2, project := 1, unannotated_source := 11,
                                 annotator := 1, data := .tc 1 },
                               { id := 3, project := 1, unannotated_source := 10,
                                 annotator := 2, data := .tc 2 },
                               { id := 4, project := 1, unannotated_source := 11,
                                 annotator := 2, data := .tc 1 }],
                   annotators := [{ id := 1, project := 1, username := "ann1" },
                                  { id := 2, project := 1, username := "ann2" }] }
                 { id := 1, project := 1, unannotated_source := 10, annotator := 1,
                   data := .tc 1 },
             annotator2_values :=
               EntryRec.values
                 { categories := [{ id := 1, project := 1, name := "A" },
                                  { id := 2, project := 1, name := "B" }],
                   unannotated := [{ id := 10, project := 1, kind := .textClassification,
                                     text := "shared" },
                                   { id := 11, project := 1, kind := .textClassification,
                                     text := "agreed" }],
                   entries := [{ id := 1, project := 1, unannotated_source := 10,
                                 annotator := 1, data := .tc 1 },
                               { id := 2, project := 1, unannotated_source := 11,
                                 annotator := 1, data := .tc 1 },
                               { id := 3, project := 1, unannotated_source := 10,
                                 annotator := 2, data := .tc 2 },
                               { id := 4, project := 1, unannotated_source := 11,
                                 annotator := 2, data := .tc 1 }],
                   annotators := [{ id := 1, project := 1, username := "ann1" },
                                  { id := 2, project := 1, username := "ann2" }] }
                 { id := 3, project := 1, unannotated_source := 10, annotator := 2,
                   data := .tc 2 },
             text :=
               DB.sourceText
                 { categories := [{ id := 1, project := 1, name := "A" },
                                  { id := 2, project := 1, name := "B" }],
                   unannotated := [{ id := 10, project := 1, kind := .textClassification,
                                     text := "shared" },
                                   { id := 11, project := 1, kind := .textClassification,
                                     text := "agreed" }],
                   entries := [{ id := 1, project := 1, unannotated_source := 10,
                                 annotator := 1, data := .tc 1 },
                               { id := 2, project := 1, unannotated_source := 11,
                                 annotator := 1, data := .tc 1 },
                               { id := 3, project := 1, unannotated_source := 10,
                                 annotator := 2, data := .tc 2 },
                               { id := 4, project := 1, unannotated_source := 11,
                                 annotator := 2, data := .tc 1 }],
                   annotators := [{ id := 1, project := 1, username := "ann1" },
                                  { id := 2, project := 1, username := "ann2" }] }
                 10 },
           { annotator1_values :=
               EntryRec.values
                 { categories := [{ id := 1, project := 1, name := "A" },
                                  { id := 2, project := 1, name := "B" }],
                   unannotated := [{ id := 10, project := 1, kind := .textClassification,
                                     text := "shared" },
                                   { id := 11, project := 1, kind := .textClassification,
                                     text := "agreed" }],
                   entries := [{ id := 1, project := 1, unannotated_source := 10,
                                 annotator := 1, data := .tc 1 },
                               { id := 2, project := 1, unannotated_source := 11,
                                 annotator := 1, data := .tc 1 },
                               { id := 3, project := 1, unannotated_source := 10,
                                 annotator := 2, data := .tc 2 },
                               { id := 4, project := 1, unannotated_source := 11,
                                 annotator := 2, data := .tc 1 }],
                   annotators := [{ id := 1, project := 1, username := "ann1" },
                                  { id := 2, project := 1, username := "ann2" }] }
                 { id := 1, project := 1, unannotated_source := 10, annotator := 1,
                   data := .tc 1 },
             annotator2_values :=
               EntryRec.values
                 { categories := [{ id := 1, project := 1, name := "A" },
                                  { id := 2, project := 1, name := "B" }],
                   unannotated := [{ id := 10, project := 1, kind := .textClassification,
                                     text := "shared" },
                                   { id := 11, project := 1, kind := .textClassification,
                                     text := "agreed" }],
                   entries := [{ id := 1, project := 1, unannotated_source := 10,
                                 annotator := 1, data := .tc 1 },
                               { id := 2, project := 1, unannotated_source := 11,
                                 annotator := 1, data := .tc 1 },
                               { id := 3, project := 1, unannotated_source := 10,
                                 annotator := 2, data := .tc 2 },
                               { id := 4, project := 1, unannotated_source := 11,
                                 annotator := 2, data := .tc 1 }],
                   annotators := [{ id := 1, project := 1, username := "ann1" },
                                  { id := 2, project := 1, username := "ann2" }] }
                 { id := 3, project := 1, unannotated_source := 10, annotator := 2,
                   data := .tc 2 },
             text :=
               DB.sourceText
                 { categories := [{ id := 1, project := 1, name := "A" },
                                  { id := 2, project := 1, name := "B" }],
                   unannotated := [{ id := 10, project := 1, kind := .textClassification,
                                     text := "shared" },
                                   { id := 11, project := 1, kind := .textClassification,
                                     text := "agreed" }],
                   entries := [{ id := 1, project := 1, unannotated_source := 10,
                                 annotator := 1, data := .tc 1 },
                               { id := 2, project := 1, unannotated_source := 11,
                                 annotator := 1, data := .tc 1 },
                               { id := 3, project := 1, unannotated_source := 10,
                                 annotator := 2, data := .tc 2 },
                               { id := 4, project := 1, unannotated_source := 11,
                                 annotator := 2, data := .tc 1 }],
                   annotators := [{ id := 1, project := 1, username := "ann1" },
                                  { id := 2, project := 1, username := "ann2" }] }
                 10 }] :=
  (export_disagreements_shared_values
    { categories := [{ id := 1, project := 1, name := "A" },
                     { id := 2, project := 1, name := "B" }],
      unannotated := [{ id := 10, project := 1, kind := .textClassification,
                        text := "shared" },
                      { id := 11, project := 1, kind := .textClassification,
                        text := "agreed" }],
      entries := [{ id := 1, project := 1, unannotated_source := 10, annotator := 1,
                    data := .tc 1 },
                  { id := 2, project := 1, unannotated_source := 11, annotator := 1,
                    data := .tc 1 },
                  { id := 3, project := 1, unannotated_source := 10, annotator := 2,
                    data := .tc 2 },
                  { id := 4, project := 1, unannotated_source := 11, annotator := 2,
                    data := .tc 1 }],
      annotators := [{ id := 1, project := 1, username := "ann1" },
                     { id := 2, project := 1, username := "ann2" }] }
    { id := 1, name := "P", ptype := .textClassification }
    { id := 1, project := 1, username := "ann1" }
    { id := 2, project := 1, username := "ann2" }
    (by decide) (by decide)).2
    10
    { id := 1, project := 1, unannotated_source := 10, annotator := 1, data := .tc 1 }
    { id := 3, project := 1, unannotated_source := 10, annotator := 2, data := .tc 2 }
    (by decide) (by decide) rfl rfl (by decide) (by decide)

/-- C6: the claim says get_statistics returns per-category entry counts for
classification and NER projects and field averages for MT projects. It does
not: every implementation filters or values the base ProjectEntry
polymorphic queryset on a subtype-only column (classification, adequacy,
fluency), which Django cannot resolve against the base model, so any
classification or NER project with at least one category, and every MT
project, raises FieldError instead of returning statistics; only a
category-less classification or NER project returns its empty summary. -/
theorem get_statistics_raises_field_error :
    tcGetStatistics
        { categories := [{ id := 1, project := 1, name := "category1" }],
          unannotated := [{ id := 10, project := 1, kind := .textClassification,
                            text := "foo" }],
          entries := [{ id := 1, project := 1, unannotated_source := 10,
                        annotator := 1, data := .tc 1 }] }
        { id := 1, name := "TCProject", ptype := .textClassification } =
      .error (fieldErrorMsg "classification") ∧
    tcGetStatistics { } { id := 1, name := "Empty", ptype := .textClassification } =
      .ok [] ∧
    nerGetStatistics { categories := [{ id := 1, project := 1, name := "PER" }] }
        { id := 1, name := "NERProject", ptype := .namedEntityRecognition } =
      .error (fieldErrorMsg "classification") ∧
    mtGetStatistics { } { id := 1, name := "MTA", ptype := .machineTranslationAdequacy } =
      .error (fieldErrorMsg "adequacy") ∧
    mtGetStatistics { } { id := 2, name := "MTF", ptype := .machineTranslationFluency } =
      .error (fieldErrorMsg "fluency") := by
  refine ⟨by decide, by decide, by decide, by decide, by decide⟩

/-- C8 counterexample: the machine-translation-adequacy kind emits the
parameter columns reference_translation and mt_system_translation with one
entry but the hardcoded column text with none, and a text-classification or
NER project with one entry aborts with KeyError (emitting no CSV at all),
so no kind's CSV column set is stable across entry counts. -/
theorem export_csv_column_instability :
    exportProjectCsv
        { unannotated := [{ id := 10, project := 1, kind := .machineTranslationAdequacy,
                            text := "s", mt_system_translation := some "t" }],
          entries := [{ id := 1, project := 1, unannotated_source := 10, annotator := 1,
                        data := .mtAdequacy 3 none [] [] }] }
        { id := 1, name := "MTA", ptype := .machineTranslationAdequacy } =
      .ok [[.pyStr "id", .pyStr "imported_text_source_id", .pyStr "reference_translation",
            .pyStr "mt_system_translation", .pyStr "adequacy",
            .pyStr "preannotation_adequacy", .pyStr "created_at", .pyStr "updated_at"],
           [.pyNat 1, .pyNat 10, .pyStr "s", .pyStr "t", .pyRat 3,
            .pyStr "No annotation", .pyStr "", .pyStr ""]] ∧
    exportProjectCsv { } { id := 1, name := "MTA", ptype := .machineTranslationAdequacy } =
      .ok [[.pyStr "id", .pyStr "imported_text_source_id", .pyStr "text",
            .pyStr "adequacy", .pyStr "preannotation_adequacy",
            .pyStr "created_at", .pyStr "updated_at"]] ∧
    exportProjectCsv
        { categories := [{ id := 1, project := 1, name := "category1" }],
          unannotated := [{ id := 10, project := 1, kind := .textClassification,
                            text := "foo" }],
          entries := [{ id := 1, project := 1, unannotated_source := 10, annotator := 1,
                        data := .tc 1 }] }
        { id := 1, name := "TC", ptype := .textClassification } =
      .error "KeyError: classification" ∧
    exportProjectCsv
        { categories := [{ id := 1, project := 1, name := "PER" }],
          unannotated := [{ id := 10, project := 1, kind := .namedEntityRecognition,
                            text := "bar" }],
          entries := [{ id := 1, project := 1, unannotated_source := 10, annotator := 1,
                        data := .ner [] }] }
        { id := 1, name := "NER", ptype := .namedEntityRecognition } =
      .error "KeyError: ner_text_highlights" := by
  refine ⟨by decide, by decide, by decide, by decide⟩

lemma exportCsvLoop_ok_of_rows (db : DB) (proj : ProjectRec) (vfs : List String) :
    ∀ entries : List EntryRec,
      (∀ e ∈ entries, ∃ row, entryRowCells db vfs e = .ok row) →
      ∃ rows, exportCsvLoop db proj vfs true entries = .ok rows := by
  intro entries
  induction entries with
  | nil => intro _; exact ⟨[], rfl⟩
  | cons e rest ih =>
    intro h
    obtain ⟨row, hrow⟩ := h e (List.mem_cons_self e rest)
    obtain ⟨rows, hrows⟩ := ih (fun x hx => h x (List.mem_cons_of_mem e hx))
    refine ⟨row :: rows, ?_⟩
    have hstep : exportCsvLoop db proj vfs true (e :: rest) =
        match entryRowCells db vfs e with
        | .error err => .error err
        | .ok row' =>
          match exportCsvLoop db proj vfs true rest with
          | .error err => .error err
          | .ok rows' => .ok (([] : List (List PyCell)) ++ row' :: rows') := rfl
    rw [hstep, hrow, hrows]
    rfl

/-- C8 amended: a project of any kind with zero entries emits exactly the
fallback header, whose parameter column is hardcoded to text; a
machine-translation project with entries emits a header carrying the kind's
parameter keys (reference_translation and mt_system_translation, or
mt_system_translation alone), which differ from the fallback; and a
text-classification or NER project with at least one entry aborts the CSV
export with an uncaught KeyError — values of a classification entry is
keyed category while the value field is classification, and the NER
pre_annotations dictionary is empty — emitting no CSV; so no kind's column
set is stable across entry counts. -/
theorem export_csv_rows_by_kind (db : DB) (proj : ProjectRec)
    (hsrc : ∀ e ∈ db.entriesOf proj.id, ∃ u,
      db.unannotated.find? (fun x => x.id == e.unannotated_source) = some u ∧
      u.kind = proj.ptype) :
    (db.entriesOf proj.id = [] →
      exportProjectCsv db proj =
        .ok [headerCells ["text"] (sortStrings proj.value_fields)]) ∧
    (proj.ptype = .textClassification →
      (∀ e ∈ db.entriesOf proj.id, ∃ c, e.data = .tc c) →
      db.entriesOf proj.id ≠ [] →
      exportProjectCsv db proj = .error "KeyError: classification") ∧
    (proj.ptype = .namedEntityRecognition →
      (∀ e ∈ db.entriesOf proj.id, ∃ hs, e.data = .ner hs) →
      db.entriesOf proj.id ≠ [] →
      exportProjectCsv db proj = .error "KeyError: ner_text_highlights") ∧
    (proj.ptype = .machineTranslationAdequacy →
      (∀ e ∈ db.entriesOf proj.id, ∃ a c st tt, e.data = .mtAdequacy a c st tt) →
      db.entriesOf proj.id ≠ [] →
      ∃ rest, exportProjectCsv db proj =
        .ok (headerCells ["reference_translation", "mt_system_translation"]
          ["adequacy"] :: rest)) ∧
    (proj.ptype = .machineTranslationFluency →
      (∀ e ∈ db.entriesOf proj.id, ∃ f c tt, e.data = .mtFluency f c tt) →
      db.entriesOf proj.id ≠ [] →
      ∃ rest, exportProjectCsv db proj =
        .ok (headerCells ["mt_system_translation"] ["fluency"] :: rest)) := by
  refine ⟨?_, ?_, ?_, ?_, ?_⟩
  · intro hE
    simp [exportProjectCsv, hE, exportCsvLoop]
  · intro hpt hdata hne
    cases hE : db.entriesOf proj.id with
    | nil => exact absurd hE hne
    | cons e rest =>
      obtain ⟨c, hc⟩ := hdata e (hE ▸ List.mem_cons_self e rest)
      have hvfs : sortStrings proj.value_fields = ["classification"] := by
        simp [ProjectRec.value_fields, hpt, sortStrings, insertSorted]
      have hrow : entryRowCells db ["classification"] e =
          .error "KeyError: classification" := by
        simp [entryRowCells, valuesDict, hc, mapDictGet, dictGet]
      have hloop : exportCsvLoop db proj ["classification"] false (e :: rest) =
          .error "KeyError: classification" := by
        have hstep : exportCsvLoop db proj ["classification"] false (e :: rest) =
            match entryRowCells db ["classification"] e with
            | .error err => .error err
            | .ok row' =>
              match exportCsvLoop db proj ["classification"] true rest with
              | .error err => .error err
              | .ok rows' =>
                .ok ([headerCells
                    ((parametersDict (sourceOf db e)).map (fun kv => kv.1))
                    ["classification"]] ++ row' :: rows') := rfl
        rw [hstep, hrow]
      simp only [exportProjectCsv]
      rw [hvfs, hE, hloop]
  · intro hpt hdata hne
    cases hE : db.entriesOf proj.id with
    | nil => exact absurd hE hne
    | cons e rest =>
      obtain ⟨hs, hc⟩ := hdata e (hE ▸ List.mem_cons_self e rest)
      obtain ⟨u, hfind, hkind⟩ := hsrc e (hE ▸ List.mem_cons_self e rest)
      rw [hpt] at hkind
      have hsrcOf : sourceOf db e = u := by simp [sourceOf, hfind]
      have hvfs : sortStrings proj.value_fields = ["ner_text_highlights"] := by
        simp [ProjectRec.value_fields, hpt, sortStrings, insertSorted]
      have hrow : entryRowCells db ["ner_text_highlights"] e =
          .error "KeyError: ner_text_highlights" := by
        simp [entryRowCells, hsrcOf, valuesDict, hc, mapDictGet, dictGet,
          preAnnotationsDict, hkind]
      have hloop : exportCsvLoop db proj ["ner_text_highlights"] false (e :: rest) =
          .error "KeyError: ner_text_highlights" := by
        have hstep : exportCsvLoop db proj ["ner_text_highlights"] false (e :: rest) =
            match entryRowCells db ["ner_text_highlights"] e with
            | .error err => .error err
            | .ok row' =>
              match exportCsvLoop db proj ["ner_text_highlights"] true rest with
              | .error err => .error err
              | .ok rows' =>
                .ok ([headerCells
                    ((parametersDict (sourceOf db e)).map (fun kv => kv.1))
                    ["ner_text_highlights"]] ++ row' :: rows') := rfl
        rw [hstep, hrow]
      simp only [exportProjectCsv]
      rw [hvfs, hE, hloop]
  · intro hpt hdata hne
    have hvfs : sortStrings proj.value_fields = ["adequacy"] := by
      simp [ProjectRec.value_fields, hpt, sortStrings, insertSorted]
    have hall : ∀ x ∈ db.entriesOf proj.id,
        ∃ row, entryRowCells db ["adequacy"] x = .ok row := by
      intro x hx
      obtain ⟨a, c, st, tt, hdx⟩ := hdata x hx
      obtain ⟨u, hfind, hkind⟩ := hsrc x hx
      rw [hpt] at hkind
      have hsrcOf : sourceOf db x = u := by simp [sourceOf, hfind]
      cases hr : entryRowCells db ["adequacy"] x with
      | ok row => exact ⟨row, rfl⟩
      | error err =>
        revert hr
        simp [entryRowCells, hsrcOf, valuesDict, hdx, mapDictGet, dictGet,
          preAnnotationsDict, hkind]
    cases hE : db.entriesOf proj.id with
    | nil => exact absurd hE hne
    | cons e rest =>
      obtain ⟨row, hrow⟩ := hall e (hE ▸ List.mem_cons_self e rest)
      obtain ⟨rows, hrows⟩ := exportCsvLoop_ok_of_rows db proj ["adequacy"] rest
        (fun x hx => hall x (hE ▸ List.mem_cons_of_mem e hx))
      obtain ⟨u, hfind, hkind⟩ := hsrc e (hE ▸ List.mem_cons_self e rest)
      rw [hpt] at hkind
      have hsrcOf : sourceOf db e = u := by simp [sourceOf, hfind]
      have hhead : (parametersDict u).map (fun kv => kv.1) =
          ["reference_translation", "mt_system_translation"] := by
        simp [parametersDict, hkind]
      refine ⟨row :: rows, ?_⟩
      have hloop : exportCsvLoop db proj ["adequacy"] false (e :: rest) =
          .ok (headerCells ["reference_translation", "mt_system_translation"]
            ["adequacy"] :: row :: rows) := by
        have hstep : exportCsvLoop db proj ["adequacy"] false (e :: rest) =
            match entryRowCells db ["adequacy"] e with
            | .error err => .error err
            | .ok row' =>
              match exportCsvLoop db proj ["adequacy"] true rest with
              | .error err => .error err
              | .ok rows' =>
                .ok ([headerCells
                    ((parametersDict (sourceOf db e)).map (fun kv => kv.1))
                    ["adequacy"]] ++ row' :: rows') := rfl
        rw [hstep, hrow, hrows, hsrcOf, hhead]
        rfl
      simp only [exportProjectCsv]
      rw [hvfs, hE, hloop]
      simp
  · intro hpt hdata hne
    have hvfs : sortStrings proj.value_fields = ["fluency"] := by
      simp [ProjectRec.value_fields, hpt, sortStrings, insertSorted]
    have hall : ∀ x ∈ db.entriesOf proj.id,
        ∃ row, entryRowCells db ["fluency"] x = .ok row := by
      intro x hx
      obtain ⟨f, c, tt, hdx⟩ := hdata x hx
      obtain ⟨u, hfind, hkind⟩ := hsrc x hx
      rw [hpt] at hkind
      have hsrcOf : sourceOf db x = u := by simp [sourceOf, hfind]
      cases hr : entryRowCells db ["fluency"] x with
      | ok row => exact ⟨row, rfl⟩
      | error err =>
        revert hr
        simp [entryRowCells, hsrcOf, valuesDict, hdx, mapDictGet, dictGet,
          preAnnotationsDict, hkind]
    cases hE : db.entriesOf proj.id with
    | nil => exact absurd hE hne
    | cons e rest =>
      obtain ⟨row, hrow⟩ := hall e (hE ▸ List.mem_cons_self e rest)
      obtain ⟨rows, hrows⟩ := exportCsvLoop_ok_of_rows db proj ["fluency"] rest
        (fun x hx => hall x (hE ▸ List.mem_cons_of_mem e hx))
      obtain ⟨u, hfind, hkind⟩ := hsrc e (hE ▸ List.mem_cons_self e rest)
      rw [hpt] at hkind
      have hsrcOf : sourceOf db e = u := by simp [sourceOf, hfind]
      have hhead : (parametersDict u).map (fun kv => kv.1) =
          ["mt_system_translation"] := by
        simp [parametersDict, hkind]
      refine ⟨row :: rows, ?_⟩
      have hloop : exportCsvLoop db proj ["fluency"] false (e :: rest) =
          .ok (headerCells ["mt_system_translation"] ["fluency"] :: row :: rows) := by
        have hstep : exportCsvLoop db proj ["fluency"] false (e :: rest) =
            match entryRowCells db ["fluency"] e with
            | .error err => .error err
            | .ok row' =>
              match exportCsvLoop db proj ["fluency"] true rest with
              | .error err => .error err
              | .ok rows' =>
                .ok ([headerCells
                    ((parametersDict (sourceOf db e)).map (fun kv => kv.1))
                    ["fluency"]] ++ row' :: rows') := rfl
        rw [hstep, hrow, hrows, hsrcOf, hhead]
        rfl
      simp only [exportProjectCsv]
      rw [hvfs, hE, hloop]
      simp

theorem export_csv_rows_by_kind_witness :
    DB.entriesOf
        { unannotated := [{ id := 10, project := 1, kind := .machineTranslationAdequacy,
                            text := "s", mt_system_translation := some "t" }],
          entries := [{ id := 1, project := 1, unannotated_source := 10, annotator := 1,
                        data := .mtAdequacy 3 none [] [] }] } 1 ≠ [] ∧
      (∃ rest, exportProjectCsv
          { unannotated := [{ id := 10, project := 1, kind := .machineTranslationAdequacy,
                              text := "s", mt_system_translation := some "t" }],
            entries := [{ id := 1, project := 1, unannotated_source := 10, annotator := 1,
                          data := .mtAdequacy 3 none [] [] }] }
          { id := 1, name := "MTA", ptype := .machineTranslationAdequacy } =
        .ok (headerCells ["reference_translation", "mt_system_translation"]
          ["adequacy"] :: rest)) :=
  ⟨by decide,
   (export_csv_rows_by_kind
      { unannotated := [{ id := 10, project := 1, kind := .machineTranslationAdequacy,
                          text := "s", mt_system_translation := some "t" }],
        entries := [{ id := 1, project := 1, unannotated_source := 10, annotator := 1,
                      data := .mtAdequacy 3 none [] [] }] }
      { id := 1, name := "MTA", ptype := .machineTranslationAdequacy }
      (by
        intro e he
        simp [DB.entriesOf] at he
        subst he
        exact ⟨{ id := 10, project := 1, kind := .machineTranslationAdequacy,
                 text := "s", mt_system_translation := some "t" }, rfl, rfl⟩)).2.2.2.1
     rfl
     (by
       intro e he
       simp [DB.entriesOf] at he
       subst he
       exact ⟨3, none, [], [], rfl⟩)
     (by decide)⟩

end Annopedia
